import Mathlib

/-!
Verification of the aggregate-scheduling core of the qem-bot repository
(`openqabot/types/aggregate.py`).

The Python source is shallowly embedded: pure fragments become Lean
functions, Python exceptions become `Except` errors, the external
collaborators (dashboard HTTP read, the three public-cloud settings
resolvers, the repohash merge) become explicit function parameters, and
`date.today()` becomes an explicit `today` argument.  Python builtins used
by the source (`str.split`, `str.startswith`, `int(...)`, decimal rendering
of integers, `",".join`) are modelled by hand below, on `List Char`.
-/

/-- The decimal digit characters, as used by Python's `str(int)`. -/
def digitChar (d : Nat) : Char :=
  if d = 0 then '0' else if d = 1 then '1' else if d = 2 then '2'
  else if d = 3 then '3' else if d = 4 then '4' else if d = 5 then '5'
  else if d = 6 then '6' else if d = 7 then '7' else if d = 8 then '8' else '9'

/-- Fuel-driven worker for `natDigits` (structural recursion on the fuel so
that the definition reduces in the kernel). -/
def natDigitsGo : Nat → Nat → List Char
  | 0, _ => []
  | fuel + 1, n =>
    if n < 10 then [digitChar n]
    else natDigitsGo fuel (n / 10) ++ [digitChar (n % 10)]

/-- Decimal digit list of a natural number (no sign, no padding), as produced
by Python's `str`/f-string formatting of a non-negative `int`. -/
def natDigits (n : Nat) : List Char := natDigitsGo (n + 1) n

/-- Decimal string of a natural number. -/
def natStr (n : Nat) : String := String.mk (natDigits n)

/-- Model of Python's decimal rendering of an `int` (f-string `{counter}`). -/
def pyIntStr (m : Int) : String :=
  if m < 0 then "-" ++ natStr (-m).toNat else natStr m.toNat

/-- Numeric value of a decimal digit character, `none` on a non-digit. -/
def digitVal? (c : Char) : Option Nat :=
  if 48 ≤ c.toNat ∧ c.toNat ≤ 57 then some (c.toNat - 48) else none

/-- Read a non-empty all-digit character list as a natural number
(accumulator form). -/
def readDigits : List Char → Nat → Option Nat
  | [], acc => some acc
  | c :: rest, acc =>
    match digitVal? c with
    | none => none
    | some d => readDigits rest (acc * 10 + d)

/-- Model of Python's `int(s)` on the string forms occurring in this program:
an optional minus sign followed by one or more decimal digits parses; every
other string raises `ValueError` (modelled as `none`).  (Python additionally
tolerates surrounding whitespace, a plus sign and inner underscores; those
forms do not occur here.) -/
def pyIntList? : List Char → Option Int
  | [] => none
  | c :: rest =>
    if c = '-' then
      match rest with
      | [] => none
      | _ :: _ => (readDigits rest 0).map (fun n => -(n : Int))
    else (readDigits (c :: rest) 0).map (fun n => (n : Int))

/-- Model of Python's `int(s)` (see `pyIntList?`). -/
def pyInt? (s : String) : Option Int := pyIntList? s.data

/-- Model of Python's `s.split(sep)` for a one-character separator, on
character lists.  Always returns a non-empty list of separator-free chunks. -/
def splitOnChar (sep : Char) : List Char → List (List Char)
  | [] => [[]]
  | c :: rest =>
    let r := splitOnChar sep rest
    if c = sep then [] :: r
    else
      match r with
      | [] => [[c]]
      | h :: t => (c :: h) :: t

/-- Model of Python's `s.split("-")[-1]`: the chunk after the last dash
(the whole string when it has no dash). -/
def lastPart (s : String) : String :=
  String.mk (List.getLastD (splitOnChar '-' s.data) [])

/-- Model of Python's `s.startswith(pre)`. -/
def pyStartswith (s pre : String) : Bool :=
  List.isPrefixOf pre.data s.data

/-- Model of Python's `",".join(parts)`. -/
def joinComma : List String → String
  | [] => ""
  | [x] => x
  | x :: rest => x ++ "," ++ joinComma rest

/-- The Python exceptions that can escape or steer the embedded code:
`SameBuildExists` (raised by `get_buildnr`, caught by the caller) and the
builtin exceptions `ValueError` (`int()` on a malformed string), `KeyError`
(`d[k]` on a dict missing `k`, including `old_jobs[0]` on a JSON object),
`IndexError` (`l[0]` on an empty list/string), `AttributeError` (attribute
access such as `.get`/`.startswith` on a value of the wrong type) and
`TypeError` (subscripting a non-subscriptable value). -/
inductive PyErr
  | sameBuildExists
  | valueErr
  | keyErr
  | idxErr
  | attrErr
  | typeErr
deriving DecidableEq, Repr

deriving instance DecidableEq for Except

/-- JSON values as returned by the dashboard read (`requests.get(...).json()`). -/
inductive Json
  | null
  | bool (v : Bool)
  | str (v : String)
  | num (v : Int)
  | arr (elems : List Json)
  | obj (fields : List (String × Json))

/-- Python truthiness of a JSON-derived value (`if old_jobs:`). -/
def jsonTruthy : Json → Bool
  | Json.null => false
  | Json.bool v => v
  | Json.str v => v ≠ ""
  | Json.num v => v ≠ 0
  | Json.arr l => !l.isEmpty
  | Json.obj l => !l.isEmpty

/-- Association lookup in a JSON object's field list (first binding wins,
as in a JSON-decoded Python dict, whose keys are unique). -/
def jlookup (fields : List (String × Json)) (k : String) : Option Json :=
  match fields with
  | [] => none
  | (k', v) :: rest => if k' = k then some v else jlookup rest k

/-- Model of Python's `x[0]` on a JSON-derived value (`old_jobs[0]`):
first element of a list, `IndexError` when empty; `KeyError` on a dict
(JSON-decoded dicts have string keys, never the integer key `0`);
first character of a string; `TypeError` otherwise. -/
def jsonIndex0 : Json → Except PyErr Json
  | Json.arr [] => Except.error PyErr.idxErr
  | Json.arr (x :: _) => Except.ok x
  | Json.obj _ => Except.error PyErr.keyErr
  | Json.str v => if v = "" then Except.error PyErr.idxErr else Except.ok (Json.str (v.take 1))
  | Json.null => Except.error PyErr.typeErr
  | Json.bool _ => Except.error PyErr.typeErr
  | Json.num _ => Except.error PyErr.typeErr

/-- Model of Python's `x.get(k, "")` on a JSON-derived value: dict lookup
with default `""`; `AttributeError` when `x` is not a dict. -/
def jsonGetField (j : Json) (k : String) : Except PyErr Json :=
  match j with
  | Json.obj fields => Except.ok ((jlookup fields k).getD (Json.str ""))
  | _ => Except.error PyErr.attrErr

/-- Model of source line `old_jobs[0].get(k, "") if old_jobs else ""`
(aggregate.py lines 113-114), where `old_jobs : Option Json` is `none`
when the dashboard read raised inside the `try` block (then `old_jobs`
is Python `None`, which is falsy). -/
def priorField (old_jobs : Option Json) (k : String) : Except PyErr Json :=
  match old_jobs with
  | none => Except.ok (Json.str "")
  | some j =>
    if jsonTruthy j then
      match jsonIndex0 j with
      | Except.error e => Except.error e
      | Except.ok first => jsonGetField first k
    else Except.ok (Json.str "")

/-- Python's `repohash == old_repohash` when `old_repohash` is JSON-derived:
equality holds only against an equal string (str-vs-other is `False`). -/
def jsonHashEq (repohash : String) (old_repohash : Json) : Bool :=
  match old_repohash with
  | Json.str v => repohash = v
  | _ => false

/-- Embedding of `Aggregate.get_buildnr` (aggregate.py lines 49-62) at
Python's dynamic-typing level: the prior repohash and prior build id are
JSON-derived values.  `cur_build.startswith(today)` raises `AttributeError`
unless the prior build id is a string; `repohash == old_repohash` is `False`
for a non-string prior repohash; `int(cur_build.split("-")[-1])` raises
`ValueError` on a malformed suffix; same-day equal-repohash raises
`SameBuildExists`; otherwise `f"{today}-{counter}"` is returned. -/
def get_buildnr_dyn (today repohash : String) (old_repohash old_build : Json) :
    Except PyErr String :=
  match old_build with
  | Json.str cur_build =>
    if pyStartswith cur_build today && jsonHashEq repohash old_repohash then
      Except.error PyErr.sameBuildExists
    else if pyStartswith cur_build today then
      match pyInt? (lastPart cur_build) with
      | none => Except.error PyErr.valueErr
      | some n => Except.ok (today ++ "-" ++ pyIntStr (n + 1))
    else Except.ok (today ++ "-" ++ pyIntStr 1)
  | _ => Except.error PyErr.attrErr

/-- `Aggregate.get_buildnr` at its declared type (all-string arguments),
with `date.today().strftime("%Y%m%d")` passed in as `today`. -/
def get_buildnr (today repohash old_repohash cur_build : String) :
    Except PyErr String :=
  get_buildnr_dyn today repohash (Json.str old_repohash) (Json.str cur_build)

/-- `Repos` (openqabot/types/__init__.py): a channel, i.e. a
(product, version, architecture) value triple with structural equality. -/
structure Repos where
  product : String
  version : String
  arch : String
deriving DecidableEq, Repr

/-- `ProdVer` (openqabot/types/__init__.py): a (product, version) pair naming
the channel a test template tracks, independent of architecture. -/
structure ProdVer where
  product : String
  version : String
deriving DecidableEq, Repr

/-- `Incident` (openqabot/types/incident.py, not part of the sources under
review).  Modelled from the spec: an incident has an identifier, a set of
channels (each a (product, version, architecture) triple) and the boolean
flags `livepatch` and `staging`; read-only to this core. -/
structure Incident where
  id : Nat
  channels : List Repos
  livepatch : Bool
  staging : Bool
deriving DecidableEq, Repr

/-- Modelled from the spec: Python's `str(inc)` on an incident is its
identifier rendered as a string (the dashboard record stores "the
deduplicated list of all matched incident identifiers (as strings)"). -/
def incStr (i : Incident) : String := natStr i.id

/-- A value stored in one of the settings dictionaries: the program puts
strings and the integer `1` (`_OBSOLETE`) into them. -/
inductive Val
  | s (v : String)
  | n (v : Int)
deriving DecidableEq, Repr

/-- A Python `dict` with string keys, embedded as an association list in
insertion order (dicts built by this program have unique keys). -/
abbrev Dict := List (String × Val)

/-- Python `d[k]` / `d.get(k)`: first binding of `k`. -/
def dlookup (d : Dict) (k : String) : Option Val :=
  match d with
  | [] => none
  | (k', v) :: rest => if k' = k then some v else dlookup rest k

/-- Python `k in d`. -/
def dcontains (d : Dict) (k : String) : Bool := (dlookup d k).isSome

/-- Python `d[k] = v`: replace the existing binding in place, else append. -/
def dset (d : Dict) (k : String) (v : Val) : Dict :=
  match d with
  | [] => [(k, v)]
  | (k', v') :: rest => if k' = k then (k, v) :: rest else (k', v') :: dset rest k v

/-- Python `d.update(d2)`: assign every binding of `d2` into `d`, in order. -/
def dupdate (d : Dict) : Dict → Dict
  | [] => d
  | kv :: rest => dupdate (dset d kv.1 kv.2) rest

/-- Python `bool(d.get(k, False))`: `False` when the key is absent, else the
truthiness of the stored value (used by the settings-resolver checks). -/
def dgetTruthy (d : Dict) (k : String) : Bool :=
  match dlookup d k with
  | none => false
  | some (Val.s v) => v ≠ ""
  | some (Val.n v) => v ≠ 0

/-- `sorted(set(strings))`: deduplicate, then sort lexicographically
(Python sorts strings by code point, as does `String`'s linear order). -/
def sortedDedup (l : List String) : List String :=
  List.insertionSort (fun a b => a ≤ b) l.dedup

/-- The list handed to `merge_repohash` (aggregate.py lines 94-100):
`sorted(set(str(inc) for inc in chain.from_iterable(test_incidents.values())))`,
as a function of the concatenated matched-incident lists. -/
def repohashInput (l : List Incident) : List String := sortedDedup (l.map incStr)

/-- `Aggregate.__init__`'s configuration state (aggregate.py lines 27-32):
product name, `FLAVOR`, architecture list, `onetime` flag, the
`test_issues` template map (template name to `ProdVer`, in dict order) and
the base settings. -/
structure AggregateConf where
  product : String
  flavor : String
  archs : List String
  onetime : Bool
  test_issues : List (String × ProdVer)
  settings : Dict

/-- The external collaborators of the per-architecture pipeline, passed in
explicitly: the repohash merge, the dashboard read (per architecture;
`none` models an exception raised inside the `try` block of lines 102-111,
`some j` a successfully decoded JSON body), the three public-cloud settings
resolvers, and today's date string `date.today().strftime("%Y%m%d")`. -/
structure External where
  merge_repohash : List String → String
  dashboard : String → Option Json
  apply_pc_tools_image : Dict → Dict
  apply_publiccloud_regex : Dict → Dict
  apply_publiccloud_pint_image : Dict → Dict
  today : String

/-- `valid_incidents` (aggregate.py lines 86-88): only incidents with
`livepatch == false` and `staging == false`. -/
def valid_incidents (incidents : List Incident) : List Incident :=
  incidents.filter (fun i => !(i.livepatch || i.staging))

/-- `test_incidents` (aggregate.py lines 83-92): for each template (in
template-map order) the list of valid incidents whose channels contain
`Repos(template.product, template.version, arch)`; the `defaultdict` only
ever acquires keys on a first append, so templates with no match are
absent. -/
def test_incidents (issues : List (String × ProdVer)) (incidents : List Incident)
    (arch : String) : List (String × List Incident) :=
  (issues.map (fun p =>
      (p.1, (valid_incidents incidents).filter
        (fun inc => decide (Repos.mk p.2.product p.2.version arch ∈ inc.channels))))).filter
    (fun q => !q.2.isEmpty)

/-- Exit signal of the settings-resolver chain: one of the three logged
`continue` paths, or a genuine Python exception escaping from a logging
f-string (`settings['...']` on a dict the resolver stripped the key from,
lines 150 and 158). -/
inductive ChainExit
  | tools
  | regex
  | pint
  | err (e : PyErr)
deriving DecidableEq, Repr

/-- Tools-image step (aggregate.py lines 136-143): if
`PUBLIC_CLOUD_TOOLS_IMAGE_QUERY` is present, apply the resolver and require
a truthy `PUBLIC_CLOUD_TOOLS_IMAGE_BASE` (the failure log reads `query`
captured before the call, so it cannot raise). -/
def toolsStep (f : Dict → Dict) (s : Dict) : Except ChainExit Dict :=
  if dcontains s "PUBLIC_CLOUD_TOOLS_IMAGE_QUERY" then
    if dgetTruthy (f s) "PUBLIC_CLOUD_TOOLS_IMAGE_BASE" then Except.ok (f s)
    else Except.error ChainExit.tools
  else Except.ok s

/-- Image-regex step (aggregate.py lines 146-152): if
`PUBLIC_CLOUD_IMAGE_REGEX` is present, apply the resolver and require a
truthy `PUBLIC_CLOUD_IMAGE_LOCATION`; the failure log subscripts
`settings['PUBLIC_CLOUD_IMAGE_REGEX']` on the resolver's output, raising
`KeyError` if the resolver dropped that key. -/
def regexStep (f : Dict → Dict) (s : Dict) : Except ChainExit Dict :=
  if dcontains s "PUBLIC_CLOUD_IMAGE_REGEX" then
    if dgetTruthy (f s) "PUBLIC_CLOUD_IMAGE_LOCATION" then Except.ok (f s)
    else
      match dlookup (f s) "PUBLIC_CLOUD_IMAGE_REGEX" with
      | some _ => Except.error ChainExit.regex
      | none => Except.error (ChainExit.err PyErr.keyErr)
  else Except.ok s

/-- Pint-query step (aggregate.py lines 154-160): if
`PUBLIC_CLOUD_PINT_QUERY` is present, apply the resolver and require a
truthy `PUBLIC_CLOUD_IMAGE_ID`; the failure log subscripts
`settings['PUBLIC_CLOUD_PINT_QUERY']` on the resolver's output. -/
def pintStep (f : Dict → Dict) (s : Dict) : Except ChainExit Dict :=
  if dcontains s "PUBLIC_CLOUD_PINT_QUERY" then
    if dgetTruthy (f s) "PUBLIC_CLOUD_IMAGE_ID" then Except.ok (f s)
    else
      match dlookup (f s) "PUBLIC_CLOUD_PINT_QUERY" with
      | some _ => Except.error ChainExit.pint
      | none => Except.error (ChainExit.err PyErr.keyErr)
  else Except.ok s

/-- The settings-resolver chain (aggregate.py lines 132-160): the three
optional steps, in source order, each threading the settings to the next. -/
def settingsPhase (fTools fRegex fPint : Dict → Dict) (s0 : Dict) :
    Except ChainExit Dict :=
  match toolsStep fTools s0 with
  | Except.error r => Except.error r
  | Except.ok s1 =>
    match regexStep fRegex s1 with
    | Except.error r => Except.error r
    | Except.ok s2 => pintStep fPint s2

/-- One step of the chain as the spec describes it: apply the resolver
exactly when its trigger key is present, else leave the settings alone. -/
def applyIfKey (k : String) (f : Dict → Dict) (s : Dict) : Dict :=
  if dcontains s k then f s else s

/-- Onetime gate (aggregate.py lines 127-130):
`not ignore_onetime and (onetime and build.split("-")[-1] != "1")`. -/
def onetimeGateSkips (onetime ignore_onetime : Bool) (build : String) : Bool :=
  !ignore_onetime && (onetime && !(lastPart build = "1"))

/-- The per-architecture outcome: the four logged/silent `continue` paths of
the loop body, or an emitted payload. -/
structure FullPost where
  openqa : Dict
  qem_incidents : List String
  qem_settings : Dict
  qem_repohash : Val
  qem_build : Val
  qem_arch : Val
  qem_product : String
  api : String
deriving DecidableEq, Repr

inductive ArchOutcome
  | sameBuild
  | onetimeSkipped
  | toolsFailed
  | regexFailed
  | pintFailed
  | noIncidents
  | payload (p : FullPost)
deriving DecidableEq, Repr

/-- The `full_post["openqa"]` dict before the loop body fills it
(aggregate.py lines 74-81): empty but for an optional `__CI_JOB_URL`. -/
def ciInit (ci_url : Option String) : Dict :=
  match ci_url with
  | some u => [("__CI_JOB_URL", Val.s u)]
  | none => []

/-- The current repohash of one architecture (aggregate.py lines 94-100):
`merge_repohash(sorted(set(str(inc) for inc in chain(...))))` over the
matched-incident lists. -/
def archRepohash (conf : AggregateConf) (ext : External) (incidents : List Incident)
    (arch : String) : String :=
  ext.merge_repohash
    (repohashInput ((test_incidents conf.test_issues incidents arch).map Prod.snd).flatten)

/-- `full_post["qem"]["incidents"]` (aggregate.py lines 169-174): the
concatenated matched-incident lists, deduplicated, as identifier strings. -/
def qemIncidentsOf (ti : List (String × List Incident)) : List String :=
  (List.dedup (ti.map Prod.snd).flatten).map incStr

/-- The final `full_post["openqa"]` dict (aggregate.py lines 94, 117, 162-168,
179-186): `REPOHASH` and `BUILD` written first, then the resolved settings
merged over them, then `FLAVOR`, `ARCH`, `_OBSOLETE`, the per-template
incident lists, and the two derived URL fields. -/
def payloadOpenqa (ci_url : Option String) (conf : AggregateConf) (arch : String)
    (ti : List (String × List Incident)) (repohash build : String) (s : Dict) : Dict :=
  let openqa2 := dset (dset (ciInit ci_url) "REPOHASH" (Val.s repohash))
    "BUILD" (Val.s build)
  let openqa6 := dset (dset (dset (dupdate openqa2 s)
    "FLAVOR" (Val.s conf.flavor)) "ARCH" (Val.s arch)) "_OBSOLETE" (Val.n 1)
  let openqa7 := ti.foldl
    (fun acc q => dset acc q.1 (Val.s (joinComma (q.2.map incStr)))) openqa6
  let urlIncs := List.dedup (qemIncidentsOf ti)
  dset (dset openqa7 "__DASHBOARD_INCIDENTS_URL"
      (Val.s (joinComma (urlIncs.map
        (fun i => "https://dashboard.qam.suse.de/incident/" ++ i)))))
    "__SMELT_INCIDENTS_URL"
    (Val.s (joinComma (urlIncs.map
      (fun i => "https://smelt.suse.de/incident/" ++ i))))

/-- The emitted payload (aggregate.py lines 188-195): the dashboard record
re-reads `REPOHASH`, `BUILD` and `ARCH` out of the assembled openqa dict
(so a settings-supplied `BUILD`/`REPOHASH` value is what gets recorded). -/
def mkFullPost (ci_url : Option String) (conf : AggregateConf) (arch : String)
    (ti : List (String × List Incident)) (repohash build : String) (s : Dict) :
    FullPost :=
  { openqa := payloadOpenqa ci_url conf arch ti repohash build s
    qem_incidents := qemIncidentsOf ti
    qem_settings := payloadOpenqa ci_url conf arch ti repohash build s
    qem_repohash := (dlookup (payloadOpenqa ci_url conf arch ti repohash build s)
      "REPOHASH").getD (Val.s "")
    qem_build := (dlookup (payloadOpenqa ci_url conf arch ti repohash build s)
      "BUILD").getD (Val.s "")
    qem_arch := (dlookup (payloadOpenqa ci_url conf arch ti repohash build s)
      "ARCH").getD (Val.s "")
    qem_product := conf.product
    api := "api/update_settings" }

/-- One iteration of the architecture loop of `Aggregate.__call__`
(aggregate.py lines 73-195), with the dashboard response for this
architecture passed in as `old_jobs`.  A `continue` becomes an
`ArchOutcome`; an uncaught Python exception becomes `Except.error`. -/
def processArch (conf : AggregateConf) (ext : External) (incidents : List Incident)
    (ci_url : Option String) (ignore_onetime : Bool) (arch : String)
    (old_jobs : Option Json) : Except PyErr ArchOutcome :=
  let ti := test_incidents conf.test_issues incidents arch
  let repohash := archRepohash conf ext incidents arch
  match priorField old_jobs "repohash" with
  | Except.error e => Except.error e
  | Except.ok old_repohash =>
    match priorField old_jobs "build" with
    | Except.error e => Except.error e
    | Except.ok old_build =>
      match get_buildnr_dyn ext.today repohash old_repohash old_build with
      | Except.error PyErr.sameBuildExists => Except.ok ArchOutcome.sameBuild
      | Except.error e => Except.error e
      | Except.ok build =>
        if onetimeGateSkips conf.onetime ignore_onetime build then
          Except.ok ArchOutcome.onetimeSkipped
        else
          match settingsPhase ext.apply_pc_tools_image ext.apply_publiccloud_regex
              ext.apply_publiccloud_pint_image conf.settings with
          | Except.error (ChainExit.err e) => Except.error e
          | Except.error ChainExit.tools => Except.ok ArchOutcome.toolsFailed
          | Except.error ChainExit.regex => Except.ok ArchOutcome.regexFailed
          | Except.error ChainExit.pint => Except.ok ArchOutcome.pintFailed
          | Except.ok settings =>
            if (qemIncidentsOf ti).isEmpty then Except.ok ArchOutcome.noIncidents
            else Except.ok (ArchOutcome.payload
              (mkFullPost ci_url conf arch ti repohash build settings))

/-- The architecture loop of `Aggregate.__call__` over a list of
architectures: payloads are appended in order, any uncaught exception
aborts the remaining iterations (and, in `OpenQABot.__call__`, the whole
run). -/
def runArchs (conf : AggregateConf) (ext : External) (incidents : List Incident)
    (ci_url : Option String) (ignore_onetime : Bool) :
    List String → Except PyErr (List FullPost)
  | [] => Except.ok []
  | a :: rest =>
    match processArch conf ext incidents ci_url ignore_onetime a (ext.dashboard a) with
    | Except.error e => Except.error e
    | Except.ok (ArchOutcome.payload p) =>
      match runArchs conf ext incidents ci_url ignore_onetime rest with
      | Except.error e => Except.error e
      | Except.ok l => Except.ok (p :: l)
    | Except.ok _ => runArchs conf ext incidents ci_url ignore_onetime rest

/-- `Aggregate.__call__` (aggregate.py lines 64-197). -/
def aggregate_call (conf : AggregateConf) (ext : External) (incidents : List Incident)
    (ci_url : Option String) (ignore_onetime : Bool) : Except PyErr (List FullPost) :=
  runArchs conf ext incidents ci_url ignore_onetime conf.archs

/-- The dashboard record a just-emitted payload leaves behind, replayed as
the next run's `GET api/update_settings` response: a one-element JSON array
whose first element carries the recorded `repohash` and `build`. -/
def mkPrior (p : FullPost) : Option Json :=
  let valToJson : Val → Json := fun v =>
    match v with
    | Val.s x => Json.str x
    | Val.n x => Json.num x
  some (Json.arr [Json.obj [("repohash", valToJson p.qem_repohash),
                            ("build", valToJson p.qem_build)]])

/-- Extract the payload from a `processArch` result (used to state closed
witness/counterexample facts about concrete runs). -/
def payloadOf (r : Except PyErr ArchOutcome) : FullPost :=
  match r with
  | Except.ok (ArchOutcome.payload p) => p
  | _ => { openqa := [], qem_incidents := [], qem_settings := [],
           qem_repohash := Val.s "", qem_build := Val.s "", qem_arch := Val.s "",
           qem_product := "", api := "" }

/-! ### Concrete fixtures used to evaluate the pipeline on closed inputs -/

/-- A channel for product SLES 15SP4 on x86_64. -/
def fixChannel : Repos := { product := "SLES", version := "15SP4", arch := "x86_64" }

/-- A plain maintenance incident subscribed to `fixChannel`. -/
def fixIncident : Incident :=
  { id := 777, channels := [fixChannel], livepatch := false, staging := false }

/-- A second incident on the same channel. -/
def fixIncident2 : Incident :=
  { id := 778, channels := [fixChannel], livepatch := false, staging := false }

/-- A single-architecture aggregate configuration with one template. -/
def fixConf : AggregateConf :=
  { product := "SLES15SP4", flavor := "Aggregate", archs := ["x86_64"],
    onetime := false,
    test_issues := [("OS_TEST_ISSUES", { product := "SLES", version := "15SP4" })],
    settings := [("DISTRI", Val.s "sle")] }

/-- External collaborators: a degenerate but deterministic repohash merge,
dashboard reads that raise, identity resolvers, a fixed date. -/
def fixExt : External :=
  { merge_repohash := fun l => joinComma l,
    dashboard := fun _ => none,
    apply_pc_tools_image := id, apply_publiccloud_regex := id,
    apply_publiccloud_pint_image := id,
    today := "20240101" }

/-- Base settings carrying a `BUILD` key (exercises the settings-over-BUILD
overwrite). -/
def fixConfOverride : AggregateConf :=
  { fixConf with settings := [("BUILD", Val.s "custom")] }

/-- Base settings shadowing every fixed trigger-settings field. -/
def fixConfShadow : AggregateConf :=
  { fixConf with settings :=
      [("FLAVOR", Val.s "shadow"), ("ARCH", Val.s "armv7"),
       ("_OBSOLETE", Val.s "no"), ("BUILD", Val.s "X"), ("REPOHASH", Val.s "Y")] }

/-- Base settings with an image-regex trigger key and no resolver output. -/
def fixConfRegex : AggregateConf :=
  { fixConf with archs := ["x86_64", "aarch64"],
                 settings := [("PUBLIC_CLOUD_IMAGE_REGEX", Val.s "suse-sles-15")] }

/-- A two-architecture configuration. -/
def fixConfTwoArchs : AggregateConf :=
  { fixConf with archs := ["x86_64", "aarch64"] }

/-- A dashboard whose read parses to a JSON object (an unexpected but
successfully decoded shape). -/
def fixExtObjResp : External :=
  { fixExt with dashboard := fun _ => some (Json.obj [("error", Json.str "oops")]) }

/-! ### Lemmas about the modelled Python builtins -/

theorem natDigitsGo_congr : ∀ f1 f2 n : Nat, n < f1 → n < f2 →
    natDigitsGo f1 n = natDigitsGo f2 n := by
  intro f1
  induction f1 with
  | zero => intro f2 n h1 _; omega
  | succ f ih =>
    intro f2 n h1 h2
    cases f2 with
    | zero => omega
    | succ g =>
      simp only [natDigitsGo]
      by_cases h10 : n < 10
      · simp [h10]
      · have hd : n / 10 < n := Nat.div_lt_self (by omega) (by omega)
        rw [if_neg h10, if_neg h10, ih g (n / 10) (by omega) (by omega)]

/-- The recurrence satisfied by `natDigits`. -/
theorem natDigits_eq (n : Nat) :
    natDigits n = if n < 10 then [digitChar n]
                  else natDigits (n / 10) ++ [digitChar (n % 10)] := by
  show natDigitsGo (n + 1) n = _
  simp only [natDigitsGo]
  by_cases h10 : n < 10
  · simp [h10]
  · have hd : n / 10 < n := Nat.div_lt_self (by omega) (by omega)
    rw [if_neg h10, if_neg h10,
      natDigitsGo_congr n (n / 10 + 1) (n / 10) (by omega) (by omega)]
    rfl

theorem digitChar_ne_dash (d : Nat) : digitChar d ≠ '-' := by
  unfold digitChar
  split_ifs <;> decide

theorem natDigits_ne_nil (n : Nat) : natDigits n ≠ [] := by
  rw [natDigits_eq]
  by_cases h10 : n < 10
  · simp [h10]
  · simp [h10]

theorem dash_notMem_natDigits (n : Nat) : ('-' : Char) ∉ natDigits n := by
  induction n using Nat.strong_induction_on with
  | _ n ih =>
    rw [natDigits_eq]
    by_cases h10 : n < 10
    · simp only [if_pos h10, List.mem_singleton]
      exact fun h => digitChar_ne_dash n h.symm
    · simp only [if_neg h10, List.mem_append, List.mem_singleton]
      rintro (h | h)
      · exact ih (n / 10) (Nat.div_lt_self (by omega) (by omega)) h
      · exact digitChar_ne_dash (n % 10) h.symm

theorem natStr_eq_one_iff (m : Nat) : natStr m = "1" ↔ m = 1 := by
  constructor
  · intro h
    have hd : natDigits m = ['1'] := congrArg String.data h
    rw [natDigits_eq] at hd
    by_cases h10 : m < 10
    · rw [if_pos h10] at hd
      have hc : digitChar m = '1' := by
        have := List.head_eq_of_cons_eq hd
        exact this
      interval_cases m <;> revert hc <;> decide
    · rw [if_neg h10] at hd
      have hlen := congrArg List.length hd
      simp at hlen
      exact absurd hlen (natDigits_ne_nil (m / 10))
  · intro h
    subst h
    decide

theorem splitOnChar_ne_nil (sep : Char) (l : List Char) : splitOnChar sep l ≠ [] := by
  induction l with
  | nil => simp [splitOnChar]
  | cons c rest ih =>
    simp only [splitOnChar]
    by_cases h : c = sep
    · simp [h]
    · simp only [if_neg h]
      cases hr : splitOnChar sep rest with
      | nil => simp
      | cons a t => simp

theorem splitOnChar_sep_notMem (sep : Char) (l : List Char) :
    ∀ p ∈ splitOnChar sep l, sep ∉ p := by
  induction l with
  | nil =>
    intro p hp
    simp [splitOnChar] at hp
    simp [hp]
  | cons c rest ih =>
    intro p hp
    simp only [splitOnChar] at hp
    by_cases h : c = sep
    · rw [if_pos h] at hp
      rcases List.mem_cons.1 hp with h' | h'
      · simp [h']
      · exact ih p h'
    · rw [if_neg h] at hp
      cases hr : splitOnChar sep rest with
      | nil => exact absurd hr (splitOnChar_ne_nil sep rest)
      | cons a t =>
        rw [hr] at hp
        rcases List.mem_cons.1 hp with h' | h'
        · subst h'
          intro hmem
          rcases List.mem_cons.1 hmem with h'' | h''
          · exact h h''.symm
          · exact ih a (hr ▸ List.mem_cons_self a t) h''
        · exact ih p (hr ▸ List.mem_cons_of_mem a h')

theorem splitOnChar_length_ge_two (sep : Char) (l : List Char) (h : sep ∈ l) :
    2 ≤ (splitOnChar sep l).length := by
  induction l with
  | nil => simp at h
  | cons c rest ih =>
    simp only [splitOnChar]
    by_cases hc : c = sep
    · rw [if_pos hc]
      have := List.length_pos.2 (splitOnChar_ne_nil sep rest)
      simp only [List.length_cons]
      omega
    · rw [if_neg hc]
      have hmem : sep ∈ rest := by
        rcases List.mem_cons.1 h with h' | h'
        · exact absurd h'.symm hc
        · exact h'
      have hlen := ih hmem
      cases hr : splitOnChar sep rest with
      | nil => exact absurd hr (splitOnChar_ne_nil sep rest)
      | cons a t =>
        rw [hr] at hlen
        simpa using hlen

theorem getLastD_of_ne_nil {α : Type} : ∀ (l : List α), l ≠ [] → ∀ (d d' : α),
    List.getLastD l d = List.getLastD l d' := by
  intro l
  induction l with
  | nil => intro h; exact absurd rfl h
  | cons a t ih =>
    intro _ d d'
    by_cases ht : t = []
    · subst ht; rfl
    · rw [List.getLastD_cons, List.getLastD_cons]

theorem getLastD_mem {α : Type} : ∀ (l : List α) (d : α), l ≠ [] →
    List.getLastD l d ∈ l := by
  intro l
  induction l with
  | nil => intro d h; exact absurd rfl h
  | cons a t ih =>
    intro d _
    rw [List.getLastD_cons]
    by_cases ht : t = []
    · subst ht; simp
    · exact List.mem_cons_of_mem a (ih a ht)

theorem getLastD_splitOnChar_append (sep : Char) (l1 l2 : List Char) :
    List.getLastD (splitOnChar sep (l1 ++ sep :: l2)) [] =
    List.getLastD (splitOnChar sep l2) [] := by
  induction l1 with
  | nil =>
    have hsplit : splitOnChar sep (sep :: l2) = [] :: splitOnChar sep l2 := by
      simp [splitOnChar]
    rw [List.nil_append, hsplit, List.getLastD_cons]
  | cons c rest ih =>
    simp only [List.cons_append, splitOnChar]
    by_cases hc : c = sep
    · rw [if_pos hc, List.getLastD_cons]
      rw [← ih]
      exact getLastD_of_ne_nil _ (splitOnChar_ne_nil sep (rest ++ sep :: l2)) [] []
    · rw [if_neg hc]
      cases hr : splitOnChar sep (rest ++ sep :: l2) with
      | nil => exact absurd hr (splitOnChar_ne_nil sep (rest ++ sep :: l2))
      | cons a t =>
        have hlen : 2 ≤ (splitOnChar sep (rest ++ sep :: l2)).length :=
          splitOnChar_length_ge_two sep _ (by simp)
        rw [hr] at hlen
        have ht : t ≠ [] := by
          intro h
          rw [h] at hlen
          simp at hlen
        rw [hr] at ih
        rw [List.getLastD_cons] at ih ⊢
        rw [← ih]
        exact getLastD_of_ne_nil t ht (c :: a) a

theorem splitOnChar_of_notMem (sep : Char) (l : List Char) (h : sep ∉ l) :
    splitOnChar sep l = [l] := by
  induction l with
  | nil => rfl
  | cons c rest ih =>
    have hc : c ≠ sep := fun hcc => h (hcc ▸ List.mem_cons_self c rest)
    have hrest : sep ∉ rest := fun hm => h (List.mem_cons_of_mem c hm)
    simp only [splitOnChar, if_neg hc, ih hrest]

theorem lastPart_no_dash (s : String) : ('-' : Char) ∉ (lastPart s).data := by
  show ('-' : Char) ∉ List.getLastD (splitOnChar '-' s.data) []
  exact splitOnChar_sep_notMem '-' s.data _
    (getLastD_mem _ [] (splitOnChar_ne_nil '-' s.data))

theorem lastPart_append_natStr (s : String) (m : Nat) :
    lastPart (s ++ "-" ++ natStr m) = natStr m := by
  unfold lastPart
  have hdata : (s ++ "-" ++ natStr m).data = s.data ++ '-' :: natDigits m := by
    rw [String.data_append, String.data_append]
    simp [natStr]
  rw [hdata, getLastD_splitOnChar_append,
    splitOnChar_of_notMem '-' (natDigits m) (dash_notMem_natDigits m)]
  rfl

theorem pyInt?_natCast_of_no_dash (s : String) (n : Int)
    (hs : ('-' : Char) ∉ s.data) (h : pyInt? s = some n) :
    ∃ k : Nat, n = (k : Int) := by
  unfold pyInt? at h
  cases hd : s.data with
  | nil => rw [hd] at h; simp [pyIntList?] at h
  | cons c rest =>
    rw [hd] at h hs
    have hc : c ≠ '-' := by
      intro hcc
      exact hs (hcc ▸ List.mem_cons_self c rest)
    rw [show pyIntList? (c :: rest) =
        (readDigits (c :: rest) 0).map (fun n => (n : Int)) by
      simp [pyIntList?, if_neg hc]] at h
    cases hro : readDigits (c :: rest) 0 with
    | none => rw [hro] at h; simp at h
    | some k =>
      rw [hro] at h
      simp at h
      exact ⟨k, h.symm⟩

theorem pyIntStr_natCast (k : Nat) : pyIntStr (k : Int) = natStr k := by
  unfold pyIntStr
  rw [if_neg (by omega : ¬((k : Int) < 0))]
  rw [Int.toNat_natCast]

theorem isPrefixOf_append (l t : List Char) : List.isPrefixOf l (l ++ t) = true := by
  induction l with
  | nil => simp [List.isPrefixOf]
  | cons a as ih => simp [List.isPrefixOf, ih]

theorem pyStartswith_append (s t : String) : pyStartswith (s ++ t) s = true := by
  unfold pyStartswith
  rw [String.data_append]
  exact isPrefixOf_append s.data t.data

theorem pyStartswith_empty_left (t : String) (h : t ≠ "") : pyStartswith "" t = false := by
  unfold pyStartswith
  cases hd : t.data with
  | nil => exact absurd (String.ext (hd.trans rfl)) h
  | cons c rest => rfl

/-! ### Lemmas about the build-identifier generator -/

theorem buildnr_same (today r rh cb : String)
    (h1 : pyStartswith cb today = true) (h2 : r = rh) :
    get_buildnr today r rh cb = Except.error PyErr.sameBuildExists := by
  unfold get_buildnr get_buildnr_dyn
  simp [h1, h2, jsonHashEq]

theorem buildnr_incr (today r rh cb : String) (n : Int)
    (h1 : pyStartswith cb today = true) (h2 : r ≠ rh)
    (hp : pyInt? (lastPart cb) = some n) :
    get_buildnr today r rh cb = Except.ok (today ++ "-" ++ pyIntStr (n + 1)) := by
  unfold get_buildnr get_buildnr_dyn
  simp [h1, h2, hp, jsonHashEq]

theorem buildnr_valueErr (today r rh cb : String)
    (h1 : pyStartswith cb today = true) (h2 : r ≠ rh)
    (hp : pyInt? (lastPart cb) = none) :
    get_buildnr today r rh cb = Except.error PyErr.valueErr := by
  unfold get_buildnr get_buildnr_dyn
  simp [h1, h2, hp, jsonHashEq]

theorem buildnr_newday (today r rh cb : String)
    (h1 : pyStartswith cb today = false) :
    get_buildnr today r rh cb = Except.ok (today ++ "-" ++ pyIntStr 1) := by
  unfold get_buildnr get_buildnr_dyn
  simp [h1]

/-- Every build id the generator returns is `today ++ "-" ++ natStr m` for
some counter `m ≥ 1` (the counter is a parsed dash-free suffix plus one, or
the literal `1`). -/
theorem buildnr_dyn_ok_form (today r : String) (jr jb : Json) (b : String)
    (h : get_buildnr_dyn today r jr jb = Except.ok b) :
    ∃ m : Nat, 1 ≤ m ∧ b = today ++ "-" ++ natStr m := by
  cases jb with
  | str cb =>
    simp only [get_buildnr_dyn] at h
    by_cases hS : pyStartswith cb today = true
    · by_cases hq : jsonHashEq r jr = true
      · simp [hS, hq] at h
      · have hqf : jsonHashEq r jr = false := by
          revert hq; cases jsonHashEq r jr <;> simp
        simp only [hS, hqf, Bool.and_false, Bool.false_eq_true, if_false,
          if_true, Bool.true_and] at h
        cases hp : pyInt? (lastPart cb) with
        | none => rw [hp] at h; simp at h
        | some n =>
          rw [hp] at h
          have hok : today ++ "-" ++ pyIntStr (n + 1) = b := by
            injection h
          rcases pyInt?_natCast_of_no_dash _ n (lastPart_no_dash cb) hp with ⟨k, rfl⟩
          refine ⟨k + 1, by omega, ?_⟩
          rw [← hok]
          have hcast : ((k : Int) + 1) = ((k + 1 : Nat) : Int) := by push_cast; ring
          rw [hcast, pyIntStr_natCast]
    · have hSf : pyStartswith cb today = false := by
        revert hS; cases pyStartswith cb today <;> simp
      simp only [hSf, Bool.false_and, Bool.false_eq_true, if_false] at h
      have hok : today ++ "-" ++ pyIntStr 1 = b := by injection h
      refine ⟨1, le_refl 1, ?_⟩
      rw [← hok]
      have h1 : pyIntStr 1 = natStr 1 := by decide
      rw [h1]
  | null => simp [get_buildnr_dyn] at h
  | bool v => simp [get_buildnr_dyn] at h
  | num v => simp [get_buildnr_dyn] at h
  | arr l => simp [get_buildnr_dyn] at h
  | obj l => simp [get_buildnr_dyn] at h

/-! ### The repohash input is determined by the set of identifiers -/

/-- `sorted(set(l))` depends only on membership: permutations and duplicate
insertions do not change it. -/
theorem sortedDedup_eq_of_mem_iff (l1 l2 : List String)
    (h : ∀ x, x ∈ l1 ↔ x ∈ l2) : sortedDedup l1 = sortedDedup l2 := by
  have p1 := List.perm_insertionSort (fun a b : String => a ≤ b) l1.dedup
  have p2 := List.perm_insertionSort (fun a b : String => a ≤ b) l2.dedup
  have n1 : (sortedDedup l1).Nodup := p1.nodup_iff.2 (List.nodup_dedup l1)
  have n2 : (sortedDedup l2).Nodup := p2.nodup_iff.2 (List.nodup_dedup l2)
  have hperm : List.Perm (sortedDedup l1) (sortedDedup l2) := by
    apply (List.perm_ext_iff_of_nodup n1 n2).2
    intro a
    rw [show sortedDedup l1 = List.insertionSort (fun a b : String => a ≤ b) l1.dedup
      from rfl]
    rw [show sortedDedup l2 = List.insertionSort (fun a b : String => a ≤ b) l2.dedup
      from rfl]
    rw [p1.mem_iff, p2.mem_iff, List.mem_dedup, List.mem_dedup]
    exact h a
  exact List.eq_of_perm_of_sorted hperm
    (List.sorted_insertionSort _ _) (List.sorted_insertionSort _ _)

/-! ### Dictionary lemmas -/

theorem dlookup_dset_self (d : Dict) (k : String) (v : Val) :
    dlookup (dset d k v) k = some v := by
  induction d with
  | nil => simp [dset, dlookup]
  | cons kv rest ih =>
    obtain ⟨k', v'⟩ := kv
    simp only [dset]
    by_cases h : k' = k
    · simp [h, dlookup]
    · simp [dlookup, h, ih]

theorem dlookup_dset_ne (d : Dict) (k k' : String) (v : Val) (h : k' ≠ k) :
    dlookup (dset d k v) k' = dlookup d k' := by
  induction d with
  | nil =>
    simp only [dset, dlookup]
    rw [if_neg (fun hh : k = k' => h hh.symm)]
  | cons kv rest ih =>
    obtain ⟨k1, v1⟩ := kv
    simp only [dset]
    by_cases h1 : k1 = k
    · subst h1
      rw [if_pos rfl]
      show dlookup ((k1, v) :: rest) k' = dlookup ((k1, v1) :: rest) k'
      simp only [dlookup]
      rw [if_neg (fun hh : k1 = k' => h (hh.symm.trans rfl)),
        if_neg (fun hh : k1 = k' => h (hh.symm.trans rfl))]
    · rw [if_neg h1]
      show dlookup ((k1, v1) :: dset rest k v) k' = dlookup ((k1, v1) :: rest) k'
      simp only [dlookup]
      by_cases h2 : k1 = k'
      · rw [if_pos h2, if_pos h2]
      · rw [if_neg h2, if_neg h2]
        exact ih

theorem dlookup_cons_ne (k1 : String) (v1 : Val) (rest : Dict) (k : String)
    (h : k1 ≠ k) : dlookup ((k1, v1) :: rest) k = dlookup rest k := by
  simp [dlookup, h]

theorem dcontains_cons_false (k1 : String) (v1 : Val) (rest : Dict) (k : String)
    (h : dcontains ((k1, v1) :: rest) k = false) :
    k1 ≠ k ∧ dcontains rest k = false := by
  simp only [dcontains, dlookup] at h
  by_cases h1 : k1 = k
  · rw [if_pos h1] at h
    simp at h
  · rw [if_neg h1] at h
    exact ⟨h1, h⟩

theorem dupdate_lookup_of_not_contains (d2 : Dict) (d : Dict) (k : String)
    (h : dcontains d2 k = false) : dlookup (dupdate d d2) k = dlookup d k := by
  induction d2 generalizing d with
  | nil => rfl
  | cons kv rest ih =>
    obtain ⟨k1, v1⟩ := kv
    obtain ⟨h1, h2⟩ := dcontains_cons_false k1 v1 rest k h
    simp only [dupdate]
    rw [ih (dset d k1 v1) h2]
    exact dlookup_dset_ne d k1 k v1 (fun hh => h1 hh.symm)

theorem dcontains_false_of_notMem_keys (d : Dict) (k : String)
    (h : k ∉ d.map Prod.fst) : dcontains d k = false := by
  induction d with
  | nil => rfl
  | cons kv rest ih =>
    obtain ⟨k1, v1⟩ := kv
    simp only [List.map_cons, List.mem_cons] at h
    push_neg at h
    simp only [dcontains, dlookup]
    rw [if_neg (fun hh : k1 = k => h.1 hh.symm)]
    exact ih h.2

theorem dupdate_lookup_of_mem_nodup (d2 : Dict) (d : Dict) (k : String) (v : Val)
    (hnd : (d2.map Prod.fst).Nodup) (h : dlookup d2 k = some v) :
    dlookup (dupdate d d2) k = some v := by
  induction d2 generalizing d with
  | nil => simp [dlookup] at h
  | cons kv rest ih =>
    obtain ⟨k1, v1⟩ := kv
    simp only [List.map_cons, List.nodup_cons] at hnd
    simp only [dupdate]
    by_cases h1 : k1 = k
    · subst h1
      rw [show dlookup ((k1, v1) :: rest) k1 = some v1 by simp [dlookup]] at h
      have hrest : dcontains rest k1 = false :=
        dcontains_false_of_notMem_keys rest k1 hnd.1
      rw [dupdate_lookup_of_not_contains rest (dset d k1 v1) k1 hrest,
        dlookup_dset_self]
      exact h
    · rw [dlookup_cons_ne k1 v1 rest k h1] at h
      exact ih (dset d k1 v1) hnd.2 h

theorem dlookup_foldl_dset_notMem (ti : List (String × List Incident)) (acc : Dict)
    (k : String) (h : k ∉ ti.map Prod.fst) :
    dlookup (ti.foldl (fun a q => dset a q.1 (Val.s (joinComma (q.2.map incStr)))) acc) k
      = dlookup acc k := by
  induction ti generalizing acc with
  | nil => rfl
  | cons q rest ih =>
    simp only [List.map_cons, List.mem_cons] at h
    push_neg at h
    simp only [List.foldl_cons]
    rw [ih _ h.2]
    exact dlookup_dset_ne acc q.1 k _ h.1

/-! ### Lemmas about the settings-resolver chain -/

theorem toolsStep_ok (f : Dict → Dict) (s s1 : Dict)
    (h : toolsStep f s = Except.ok s1) :
    s1 = applyIfKey "PUBLIC_CLOUD_TOOLS_IMAGE_QUERY" f s := by
  unfold toolsStep at h
  unfold applyIfKey
  by_cases hk : dcontains s "PUBLIC_CLOUD_TOOLS_IMAGE_QUERY" = true
  · rw [if_pos hk] at h
    rw [if_pos hk]
    by_cases ho : dgetTruthy (f s) "PUBLIC_CLOUD_TOOLS_IMAGE_BASE" = true
    · rw [if_pos ho] at h
      injection h with h
      exact h.symm
    · rw [if_neg ho] at h
      exact absurd h (by simp)
  · rw [if_neg hk] at h
    rw [if_neg hk]
    injection h with h
    exact h.symm

theorem regexStep_ok (f : Dict → Dict) (s s1 : Dict)
    (h : regexStep f s = Except.ok s1) :
    s1 = applyIfKey "PUBLIC_CLOUD_IMAGE_REGEX" f s := by
  unfold regexStep at h
  unfold applyIfKey
  by_cases hk : dcontains s "PUBLIC_CLOUD_IMAGE_REGEX" = true
  · rw [if_pos hk] at h
    rw [if_pos hk]
    by_cases ho : dgetTruthy (f s) "PUBLIC_CLOUD_IMAGE_LOCATION" = true
    · rw [if_pos ho] at h
      injection h with h
      exact h.symm
    · rw [if_neg ho] at h
      cases hl : dlookup (f s) "PUBLIC_CLOUD_IMAGE_REGEX" with
      | some v => rw [hl] at h; exact absurd h (by simp)
      | none => rw [hl] at h; exact absurd h (by simp)
  · rw [if_neg hk] at h
    rw [if_neg hk]
    injection h with h
    exact h.symm

theorem pintStep_ok (f : Dict → Dict) (s s1 : Dict)
    (h : pintStep f s = Except.ok s1) :
    s1 = applyIfKey "PUBLIC_CLOUD_PINT_QUERY" f s := by
  unfold pintStep at h
  unfold applyIfKey
  by_cases hk : dcontains s "PUBLIC_CLOUD_PINT_QUERY" = true
  · rw [if_pos hk] at h
    rw [if_pos hk]
    by_cases ho : dgetTruthy (f s) "PUBLIC_CLOUD_IMAGE_ID" = true
    · rw [if_pos ho] at h
      injection h with h
      exact h.symm
    · rw [if_neg ho] at h
      cases hl : dlookup (f s) "PUBLIC_CLOUD_PINT_QUERY" with
      | some v => rw [hl] at h; exact absurd h (by simp)
      | none => rw [hl] at h; exact absurd h (by simp)
  · rw [if_neg hk] at h
    rw [if_neg hk]
    injection h with h
    exact h.symm

/-- A successful chain applies each resolver exactly when its trigger key is
present, in the fixed order tools, regex, pint. -/
theorem settingsPhase_ok_decomp (f1 f2 f3 : Dict → Dict) (s0 d : Dict)
    (h : settingsPhase f1 f2 f3 s0 = Except.ok d) :
    d = applyIfKey "PUBLIC_CLOUD_PINT_QUERY" f3
          (applyIfKey "PUBLIC_CLOUD_IMAGE_REGEX" f2
            (applyIfKey "PUBLIC_CLOUD_TOOLS_IMAGE_QUERY" f1 s0)) := by
  unfold settingsPhase at h
  cases h1 : toolsStep f1 s0 with
  | error r => simp only [h1] at h; simp at h
  | ok s1 =>
    simp only [h1] at h
    cases h2 : regexStep f2 s1 with
    | error r => simp only [h2] at h; simp at h
    | ok s2 =>
      simp only [h2] at h
      have e1 := toolsStep_ok f1 s0 s1 h1
      have e2 := regexStep_ok f2 s1 s2 h2
      have e3 := pintStep_ok f3 s2 d h
      rw [e3, e2, e1]

/-- When none of the three trigger keys is present, the chain is the
identity. -/
theorem settingsPhase_no_triggers (f1 f2 f3 : Dict → Dict) (s0 : Dict)
    (h1 : dcontains s0 "PUBLIC_CLOUD_TOOLS_IMAGE_QUERY" = false)
    (h2 : dcontains s0 "PUBLIC_CLOUD_IMAGE_REGEX" = false)
    (h3 : dcontains s0 "PUBLIC_CLOUD_PINT_QUERY" = false) :
    settingsPhase f1 f2 f3 s0 = Except.ok s0 := by
  unfold settingsPhase toolsStep regexStep pintStep
  simp [h1, h2, h3]

theorem toolsStep_fail (f : Dict → Dict) (s : Dict)
    (hk : dcontains s "PUBLIC_CLOUD_TOOLS_IMAGE_QUERY" = true)
    (ho : dgetTruthy (f s) "PUBLIC_CLOUD_TOOLS_IMAGE_BASE" = false) :
    toolsStep f s = Except.error ChainExit.tools := by
  unfold toolsStep
  rw [if_pos hk, if_neg (by rw [ho]; simp)]

theorem regexStep_fail (f : Dict → Dict) (s : Dict)
    (hk : dcontains s "PUBLIC_CLOUD_IMAGE_REGEX" = true)
    (ho : dgetTruthy (f s) "PUBLIC_CLOUD_IMAGE_LOCATION" = false)
    (hpres : dcontains (f s) "PUBLIC_CLOUD_IMAGE_REGEX" = true) :
    regexStep f s = Except.error ChainExit.regex := by
  unfold regexStep
  rw [if_pos hk, if_neg (by rw [ho]; simp)]
  cases hl : dlookup (f s) "PUBLIC_CLOUD_IMAGE_REGEX" with
  | some v => rfl
  | none =>
    exfalso
    rw [show dcontains (f s) "PUBLIC_CLOUD_IMAGE_REGEX"
        = (dlookup (f s) "PUBLIC_CLOUD_IMAGE_REGEX").isSome from rfl, hl] at hpres
    simp at hpres

theorem pintStep_fail (f : Dict → Dict) (s : Dict)
    (hk : dcontains s "PUBLIC_CLOUD_PINT_QUERY" = true)
    (ho : dgetTruthy (f s) "PUBLIC_CLOUD_IMAGE_ID" = false)
    (hpres : dcontains (f s) "PUBLIC_CLOUD_PINT_QUERY" = true) :
    pintStep f s = Except.error ChainExit.pint := by
  unfold pintStep
  rw [if_pos hk, if_neg (by rw [ho]; simp)]
  cases hl : dlookup (f s) "PUBLIC_CLOUD_PINT_QUERY" with
  | some v => rfl
  | none =>
    exfalso
    rw [show dcontains (f s) "PUBLIC_CLOUD_PINT_QUERY"
        = (dlookup (f s) "PUBLIC_CLOUD_PINT_QUERY").isSome from rfl, hl] at hpres
    simp at hpres

theorem toolsStep_no_pyerr (f : Dict → Dict) (s : Dict) (e : PyErr) :
    toolsStep f s ≠ Except.error (ChainExit.err e) := by
  unfold toolsStep
  split_ifs <;> simp

theorem regexStep_no_pyerr (f : Dict → Dict) (s : Dict) (e : PyErr)
    (hpres : dcontains s "PUBLIC_CLOUD_IMAGE_REGEX" = true →
      dcontains (f s) "PUBLIC_CLOUD_IMAGE_REGEX" = true) :
    regexStep f s ≠ Except.error (ChainExit.err e) := by
  unfold regexStep
  by_cases hk : dcontains s "PUBLIC_CLOUD_IMAGE_REGEX" = true
  · rw [if_pos hk]
    by_cases ho : dgetTruthy (f s) "PUBLIC_CLOUD_IMAGE_LOCATION" = true
    · rw [if_pos ho]; simp
    · rw [if_neg ho]
      cases hl : dlookup (f s) "PUBLIC_CLOUD_IMAGE_REGEX" with
      | some v => simp
      | none =>
        exfalso
        have := hpres hk
        rw [show dcontains (f s) "PUBLIC_CLOUD_IMAGE_REGEX"
            = (dlookup (f s) "PUBLIC_CLOUD_IMAGE_REGEX").isSome from rfl, hl] at this
        simp at this
  · rw [if_neg hk]; simp

theorem pintStep_no_pyerr (f : Dict → Dict) (s : Dict) (e : PyErr)
    (hpres : dcontains s "PUBLIC_CLOUD_PINT_QUERY" = true →
      dcontains (f s) "PUBLIC_CLOUD_PINT_QUERY" = true) :
    pintStep f s ≠ Except.error (ChainExit.err e) := by
  unfold pintStep
  by_cases hk : dcontains s "PUBLIC_CLOUD_PINT_QUERY" = true
  · rw [if_pos hk]
    by_cases ho : dgetTruthy (f s) "PUBLIC_CLOUD_IMAGE_ID" = true
    · rw [if_pos ho]; simp
    · rw [if_neg ho]
      cases hl : dlookup (f s) "PUBLIC_CLOUD_PINT_QUERY" with
      | some v => simp
      | none =>
        exfalso
        have := hpres hk
        rw [show dcontains (f s) "PUBLIC_CLOUD_PINT_QUERY"
            = (dlookup (f s) "PUBLIC_CLOUD_PINT_QUERY").isSome from rfl, hl] at this
        simp at this
  · rw [if_neg hk]; simp

/-- Under the collaborator contract that a resolver keeps its own trigger key
(spec section 6: each resolver "returns an augmented mapping"), the chain
never raises a Python exception: it either succeeds or signals one of the
three logged skips. -/
theorem settingsPhase_no_pyerr (f1 f2 f3 : Dict → Dict) (s0 : Dict) (e : PyErr)
    (hp2 : ∀ s, dcontains s "PUBLIC_CLOUD_IMAGE_REGEX" = true →
      dcontains (f2 s) "PUBLIC_CLOUD_IMAGE_REGEX" = true)
    (hp3 : ∀ s, dcontains s "PUBLIC_CLOUD_PINT_QUERY" = true →
      dcontains (f3 s) "PUBLIC_CLOUD_PINT_QUERY" = true) :
    settingsPhase f1 f2 f3 s0 ≠ Except.error (ChainExit.err e) := by
  unfold settingsPhase
  cases h1 : toolsStep f1 s0 with
  | error r =>
    simp only [h1]
    intro hcon
    injection hcon with hcon
    subst hcon
    exact toolsStep_no_pyerr f1 s0 e h1
  | ok s1 =>
    simp only [h1]
    cases h2 : regexStep f2 s1 with
    | error r =>
      simp only [h2]
      intro hcon
      injection hcon with hcon
      subst hcon
      exact regexStep_no_pyerr f2 s1 e (hp2 s1) h2
    | ok s2 =>
      simp only [h2]
      exact pintStep_no_pyerr f3 s2 e (hp3 s2)

/-! ### Inversion and outcome lemmas for the per-architecture pipeline -/

/-- Inversion: a payload-producing run pins down every intermediate value of
the loop body. -/
theorem processArch_payload_inv (conf : AggregateConf) (ext : External)
    (incs : List Incident) (ci : Option String) (ign : Bool) (arch : String)
    (oj : Option Json) (p : FullPost)
    (h : processArch conf ext incs ci ign arch oj = Except.ok (ArchOutcome.payload p)) :
    ∃ jr jb b s,
      priorField oj "repohash" = Except.ok jr ∧
      priorField oj "build" = Except.ok jb ∧
      get_buildnr_dyn ext.today (archRepohash conf ext incs arch) jr jb = Except.ok b ∧
      onetimeGateSkips conf.onetime ign b = false ∧
      settingsPhase ext.apply_pc_tools_image ext.apply_publiccloud_regex
        ext.apply_publiccloud_pint_image conf.settings = Except.ok s ∧
      (qemIncidentsOf (test_incidents conf.test_issues incs arch)).isEmpty = false ∧
      p = mkFullPost ci conf arch (test_incidents conf.test_issues incs arch)
        (archRepohash conf ext incs arch) b s := by
  simp only [processArch] at h
  cases hpr : priorField oj "repohash" with
  | error e => simp only [hpr] at h; simp at h
  | ok jr =>
    simp only [hpr] at h
    cases hpb : priorField oj "build" with
    | error e => simp only [hpb] at h; simp at h
    | ok jb =>
      simp only [hpb] at h
      cases hbn : get_buildnr_dyn ext.today (archRepohash conf ext incs arch) jr jb with
      | error e => cases e <;> simp only [hbn] at h <;> simp at h
      | ok b =>
        simp only [hbn] at h
        by_cases hgate : onetimeGateSkips conf.onetime ign b = true
        · simp only [hgate, if_true] at h; simp at h
        · have hgf : onetimeGateSkips conf.onetime ign b = false := by
            revert hgate; cases onetimeGateSkips conf.onetime ign b <;> simp
          simp only [hgf, Bool.false_eq_true, if_false] at h
          cases hsp : settingsPhase ext.apply_pc_tools_image ext.apply_publiccloud_regex
              ext.apply_publiccloud_pint_image conf.settings with
          | error r => cases r <;> simp only [hsp] at h <;> simp at h
          | ok s =>
            simp only [hsp] at h
            by_cases hinc : (qemIncidentsOf (test_incidents conf.test_issues incs arch)).isEmpty = true
            · simp only [hinc, if_true] at h; simp at h
            · have hincf : (qemIncidentsOf (test_incidents conf.test_issues incs arch)).isEmpty = false := by
                revert hinc
                cases (qemIncidentsOf (test_incidents conf.test_issues incs arch)).isEmpty <;> simp
              simp only [hincf, Bool.false_eq_true, if_false] at h
              refine ⟨jr, jb, b, s, rfl, rfl, hbn, hgf, rfl, hincf, ?_⟩
              injection h with h
              injection h with h
              exact h.symm

/-- When the dashboard read raised (old_jobs is `None`), the loop body runs
on empty prior state and can reach no uncaught exception, provided the
date string is non-empty and the resolvers keep their own trigger keys. -/
theorem processArch_none_no_error (conf : AggregateConf) (ext : External)
    (incs : List Incident) (ci : Option String) (ign : Bool) (arch : String)
    (htoday : ext.today ≠ "")
    (hp2 : ∀ s, dcontains s "PUBLIC_CLOUD_IMAGE_REGEX" = true →
      dcontains (ext.apply_publiccloud_regex s) "PUBLIC_CLOUD_IMAGE_REGEX" = true)
    (hp3 : ∀ s, dcontains s "PUBLIC_CLOUD_PINT_QUERY" = true →
      dcontains (ext.apply_publiccloud_pint_image s) "PUBLIC_CLOUD_PINT_QUERY" = true) :
    ∀ e, processArch conf ext incs ci ign arch none ≠ Except.error e := by
  intro e
  simp only [processArch, priorField]
  have hbn : get_buildnr_dyn ext.today (archRepohash conf ext incs arch)
      (Json.str "") (Json.str "") = Except.ok (ext.today ++ "-" ++ pyIntStr 1) :=
    buildnr_newday ext.today (archRepohash conf ext incs arch) "" ""
      (pyStartswith_empty_left ext.today htoday)
  simp only [hbn]
  by_cases hgate : onetimeGateSkips conf.onetime ign (ext.today ++ "-" ++ pyIntStr 1) = true
  · simp [hgate]
  · have hgf : onetimeGateSkips conf.onetime ign (ext.today ++ "-" ++ pyIntStr 1) = false := by
      revert hgate
      cases onetimeGateSkips conf.onetime ign (ext.today ++ "-" ++ pyIntStr 1) <;> simp
    simp only [hgf, Bool.false_eq_true, if_false]
    cases hsp : settingsPhase ext.apply_pc_tools_image ext.apply_publiccloud_regex
        ext.apply_publiccloud_pint_image conf.settings with
    | error r =>
      cases r with
      | err e2 =>
        exact absurd hsp (settingsPhase_no_pyerr _ _ _ _ e2 hp2 hp3)
      | tools => simp only [hsp]; simp
      | regex => simp only [hsp]; simp
      | pint => simp only [hsp]; simp
    | ok s =>
      simp only [hsp]
      by_cases hinc : (qemIncidentsOf (test_incidents conf.test_issues incs arch)).isEmpty = true
      · simp [hinc]
      · have hincf : (qemIncidentsOf (test_incidents conf.test_issues incs arch)).isEmpty = false := by
          revert hinc
          cases (qemIncidentsOf (test_incidents conf.test_issues incs arch)).isEmpty <;> simp
        simp [hincf]

/-- A non-payload outcome for the head architecture leaves the rest of the
loop untouched. -/
theorem runArchs_cons_skip (conf : AggregateConf) (ext : External)
    (incs : List Incident) (ci : Option String) (ign : Bool) (a : String)
    (rest : List String) (o : ArchOutcome)
    (h : processArch conf ext incs ci ign a (ext.dashboard a) = Except.ok o)
    (hno : ∀ p, o ≠ ArchOutcome.payload p) :
    runArchs conf ext incs ci ign (a :: rest) = runArchs conf ext incs ci ign rest := by
  cases o with
  | payload p => exact absurd rfl (hno p)
  | sameBuild => simp only [runArchs, h]
  | onetimeSkipped => simp only [runArchs, h]
  | toolsFailed => simp only [runArchs, h]
  | regexFailed => simp only [runArchs, h]
  | pintFailed => simp only [runArchs, h]
  | noIncidents => simp only [runArchs, h]

/-- If every dashboard read raises, the whole loop still finishes without an
uncaught exception (under the same side conditions). -/
theorem runArchs_none_no_error (conf : AggregateConf) (ext : External)
    (incs : List Incident) (ci : Option String) (ign : Bool)
    (hdash : ∀ a, ext.dashboard a = none)
    (htoday : ext.today ≠ "")
    (hp2 : ∀ s, dcontains s "PUBLIC_CLOUD_IMAGE_REGEX" = true →
      dcontains (ext.apply_publiccloud_regex s) "PUBLIC_CLOUD_IMAGE_REGEX" = true)
    (hp3 : ∀ s, dcontains s "PUBLIC_CLOUD_PINT_QUERY" = true →
      dcontains (ext.apply_publiccloud_pint_image s) "PUBLIC_CLOUD_PINT_QUERY" = true) :
    ∀ (archsL : List String) (e : PyErr),
      runArchs conf ext incs ci ign archsL ≠ Except.error e := by
  intro archsL
  induction archsL with
  | nil => intro e; simp [runArchs]
  | cons a rest ih =>
    intro e
    simp only [runArchs, hdash a]
    cases hpa : processArch conf ext incs ci ign a none with
    | error e2 =>
      exact absurd hpa (processArch_none_no_error conf ext incs ci ign a htoday hp2 hp3 e2)
    | ok o =>
      cases o with
      | payload p =>
        cases hr : runArchs conf ext incs ci ign rest with
        | error e2 => exact absurd hr (ih e2)
        | ok l => simp
      | sameBuild => exact ih e
      | onetimeSkipped => exact ih e
      | toolsFailed => exact ih e
      | regexFailed => exact ih e
      | pintFailed => exact ih e
      | noIncidents => exact ih e

/-! ### Channel-matcher lemmas -/

theorem keys_nodup_unique {α : Type} (issues : List (String × α))
    (hnd : (issues.map Prod.fst).Nodup) (name : String) (t1 t2 : α)
    (h1 : (name, t1) ∈ issues) (h2 : (name, t2) ∈ issues) : t1 = t2 := by
  induction issues with
  | nil => simp at h1
  | cons p rest ih =>
    simp only [List.map_cons, List.nodup_cons] at hnd
    rcases List.mem_cons.1 h1 with e1 | m1 <;> rcases List.mem_cons.1 h2 with e2 | m2
    · rw [← e1] at e2
      injection e2 with _ h
      exact h.symm
    · exfalso
      apply hnd.1
      rw [← e1]
      exact List.mem_map.2 ⟨(name, t2), m2, rfl⟩
    · exfalso
      apply hnd.1
      rw [← e2]
      exact List.mem_map.2 ⟨(name, t1), m1, rfl⟩
    · exact ih hnd.2 m1 m2

/-- Membership in a matched-incident list, unfolded. -/
theorem matchList_mem (incidents : List Incident) (arch : String) (t : ProdVer)
    (i : Incident) :
    (i ∈ (valid_incidents incidents).filter
        (fun inc => decide (Repos.mk t.product t.version arch ∈ inc.channels))) ↔
    (i ∈ incidents ∧ i.livepatch = false ∧ i.staging = false ∧
      Repos.mk t.product t.version arch ∈ i.channels) := by
  unfold valid_incidents
  rw [List.mem_filter, List.mem_filter]
  constructor
  · rintro ⟨⟨hin, hflags⟩, hchan⟩
    simp at hflags hchan
    exact ⟨hin, hflags.1, hflags.2, hchan⟩
  · rintro ⟨hin, hl, hs, hc⟩
    refine ⟨⟨hin, ?_⟩, ?_⟩
    · simp [hl, hs]
    · simp [hc]

/-- Entries of `test_incidents` are exactly the templates with a non-empty
match list. -/
theorem test_incidents_mem (issues : List (String × ProdVer))
    (incidents : List Incident) (arch : String) (name : String) (l : List Incident) :
    ((name, l) ∈ test_incidents issues incidents arch) ↔
    (∃ t, (name, t) ∈ issues ∧
      l = (valid_incidents incidents).filter
        (fun inc => decide (Repos.mk t.product t.version arch ∈ inc.channels)) ∧
      l ≠ []) := by
  unfold test_incidents
  rw [List.mem_filter]
  constructor
  · rintro ⟨hmem, hne⟩
    rcases List.mem_map.1 hmem with ⟨p, hp, heq⟩
    injection heq with heq1 heq2
    refine ⟨p.2, ?_, heq2.symm, ?_⟩
    · rw [← heq1]
      exact hp
    · simp at hne
      intro hnil
      rw [hnil] at hne
      simp at hne
  · rintro ⟨t, hmem, hl, hne⟩
    constructor
    · apply List.mem_map.2
      exact ⟨(name, t), hmem, by rw [hl]⟩
    · simp
      intro hnil
      rw [hnil] at hne
      exact hne rfl

/-- The template names appearing in `test_incidents` come from the template
map. -/
theorem test_incidents_keys_sub (issues : List (String × ProdVer))
    (incidents : List Incident) (arch : String) (k : String)
    (hk : k ∈ (test_incidents issues incidents arch).map Prod.fst) :
    k ∈ issues.map Prod.fst := by
  rcases List.mem_map.1 hk with ⟨q, hq, rfl⟩
  have hq2 := List.mem_of_mem_filter hq
  rcases List.mem_map.1 hq2 with ⟨p, hp, heq⟩
  rw [← heq]
  exact List.mem_map_of_mem Prod.fst hp

/-! ### Where each field of the assembled openqa dict comes from -/

/-- For a key that is none of the late-written fixed fields, a lookup in the
assembled dict reaches the REPOHASH/BUILD/settings layer. -/
theorem payloadOpenqa_lookup_core (ci : Option String) (conf : AggregateConf)
    (arch : String) (ti : List (String × List Incident)) (repohash build : String)
    (s : Dict) (k : String)
    (h1 : k ≠ "__SMELT_INCIDENTS_URL") (h2 : k ≠ "__DASHBOARD_INCIDENTS_URL")
    (hti : k ∉ ti.map Prod.fst)
    (h3 : k ≠ "_OBSOLETE") (h4 : k ≠ "ARCH") (h5 : k ≠ "FLAVOR") :
    dlookup (payloadOpenqa ci conf arch ti repohash build s) k =
    dlookup (dupdate (dset (dset (ciInit ci) "REPOHASH" (Val.s repohash))
      "BUILD" (Val.s build)) s) k := by
  simp only [payloadOpenqa]
  rw [dlookup_dset_ne _ _ _ _ h1, dlookup_dset_ne _ _ _ _ h2,
    dlookup_foldl_dset_notMem _ _ _ hti,
    dlookup_dset_ne _ _ _ _ h3, dlookup_dset_ne _ _ _ _ h4,
    dlookup_dset_ne _ _ _ _ h5]

theorem payloadOpenqa_FLAVOR (ci : Option String) (conf : AggregateConf)
    (arch : String) (ti : List (String × List Incident)) (repohash build : String)
    (s : Dict) (hti : "FLAVOR" ∉ ti.map Prod.fst) :
    dlookup (payloadOpenqa ci conf arch ti repohash build s) "FLAVOR"
      = some (Val.s conf.flavor) := by
  simp only [payloadOpenqa]
  rw [dlookup_dset_ne _ _ _ _ (by decide : "FLAVOR" ≠ "__SMELT_INCIDENTS_URL"),
    dlookup_dset_ne _ _ _ _ (by decide : "FLAVOR" ≠ "__DASHBOARD_INCIDENTS_URL"),
    dlookup_foldl_dset_notMem _ _ _ hti,
    dlookup_dset_ne _ _ _ _ (by decide : "FLAVOR" ≠ "_OBSOLETE"),
    dlookup_dset_ne _ _ _ _ (by decide : "FLAVOR" ≠ "ARCH"),
    dlookup_dset_self]

theorem payloadOpenqa_ARCH (ci : Option String) (conf : AggregateConf)
    (arch : String) (ti : List (String × List Incident)) (repohash build : String)
    (s : Dict) (hti : "ARCH" ∉ ti.map Prod.fst) :
    dlookup (payloadOpenqa ci conf arch ti repohash build s) "ARCH"
      = some (Val.s arch) := by
  simp only [payloadOpenqa]
  rw [dlookup_dset_ne _ _ _ _ (by decide : "ARCH" ≠ "__SMELT_INCIDENTS_URL"),
    dlookup_dset_ne _ _ _ _ (by decide : "ARCH" ≠ "__DASHBOARD_INCIDENTS_URL"),
    dlookup_foldl_dset_notMem _ _ _ hti,
    dlookup_dset_ne _ _ _ _ (by decide : "ARCH" ≠ "_OBSOLETE"),
    dlookup_dset_self]

theorem payloadOpenqa_OBSOLETE (ci : Option String) (conf : AggregateConf)
    (arch : String) (ti : List (String × List Incident)) (repohash build : String)
    (s : Dict) (hti : "_OBSOLETE" ∉ ti.map Prod.fst) :
    dlookup (payloadOpenqa ci conf arch ti repohash build s) "_OBSOLETE"
      = some (Val.n 1) := by
  simp only [payloadOpenqa]
  rw [dlookup_dset_ne _ _ _ _ (by decide : "_OBSOLETE" ≠ "__SMELT_INCIDENTS_URL"),
    dlookup_dset_ne _ _ _ _ (by decide : "_OBSOLETE" ≠ "__DASHBOARD_INCIDENTS_URL"),
    dlookup_foldl_dset_notMem _ _ _ hti,
    dlookup_dset_self]

/-- With no `BUILD` key among the resolved settings or template names, the
recorded `BUILD` is the generated one. -/
theorem payloadOpenqa_BUILD_generated (ci : Option String) (conf : AggregateConf)
    (arch : String) (ti : List (String × List Incident)) (repohash build : String)
    (s : Dict) (hti : "BUILD" ∉ ti.map Prod.fst)
    (hs : dcontains s "BUILD" = false) :
    dlookup (payloadOpenqa ci conf arch ti repohash build s) "BUILD"
      = some (Val.s build) := by
  rw [payloadOpenqa_lookup_core ci conf arch ti repohash build s "BUILD"
    (by decide) (by decide) hti (by decide) (by decide) (by decide)]
  rw [dupdate_lookup_of_not_contains s _ _ hs, dlookup_dset_self]

theorem payloadOpenqa_REPOHASH_generated (ci : Option String) (conf : AggregateConf)
    (arch : String) (ti : List (String × List Incident)) (repohash build : String)
    (s : Dict) (hti : "REPOHASH" ∉ ti.map Prod.fst)
    (hs : dcontains s "REPOHASH" = false) :
    dlookup (payloadOpenqa ci conf arch ti repohash build s) "REPOHASH"
      = some (Val.s repohash) := by
  rw [payloadOpenqa_lookup_core ci conf arch ti repohash build s "REPOHASH"
    (by decide) (by decide) hti (by decide) (by decide) (by decide)]
  rw [dupdate_lookup_of_not_contains s _ _ hs,
    dlookup_dset_ne _ _ _ _ (by decide : "REPOHASH" ≠ "BUILD"), dlookup_dset_self]

/-- A `BUILD` binding among the resolved settings overwrites the generated
build id in the trigger settings. -/
theorem payloadOpenqa_BUILD_overridden (ci : Option String) (conf : AggregateConf)
    (arch : String) (ti : List (String × List Incident)) (repohash build : String)
    (s : Dict) (v : Val) (hti : "BUILD" ∉ ti.map Prod.fst)
    (hnd : (s.map Prod.fst).Nodup) (hv : dlookup s "BUILD" = some v) :
    dlookup (payloadOpenqa ci conf arch ti repohash build s) "BUILD" = some v := by
  rw [payloadOpenqa_lookup_core ci conf arch ti repohash build s "BUILD"
    (by decide) (by decide) hti (by decide) (by decide) (by decide)]
  exact dupdate_lookup_of_mem_nodup s _ _ v hnd hv

theorem payloadOpenqa_REPOHASH_overridden (ci : Option String) (conf : AggregateConf)
    (arch : String) (ti : List (String × List Incident)) (repohash build : String)
    (s : Dict) (v : Val) (hti : "REPOHASH" ∉ ti.map Prod.fst)
    (hnd : (s.map Prod.fst).Nodup) (hv : dlookup s "REPOHASH" = some v) :
    dlookup (payloadOpenqa ci conf arch ti repohash build s) "REPOHASH" = some v := by
  rw [payloadOpenqa_lookup_core ci conf arch ti repohash build s "REPOHASH"
    (by decide) (by decide) hti (by decide) (by decide) (by decide)]
  exact dupdate_lookup_of_mem_nodup s _ _ v hnd hv

/-- Keys that are not template names, given that the template map avoids
them. -/
theorem notMem_ti_keys (conf : AggregateConf) (incs : List Incident) (arch : String)
    (k : String) (htempl : ∀ q ∈ conf.test_issues, q.1 ≠ k) :
    k ∉ (test_incidents conf.test_issues incs arch).map Prod.fst := by
  intro hmem
  have hk := test_incidents_keys_sub conf.test_issues incs arch k hmem
  rcases List.mem_map.1 hk with ⟨q, hq, hqk⟩
  exact htempl q hq hqk

/-! ### Claim C1 -/

/-- C1, counterexample: for the ill-formed prior build id `"20240101x"`
(today `"20240101"`, differing repohashes) the generator neither signals
DUPLICATE nor returns any build id: `int("20240101x")` raises `ValueError`,
so the claimed rules 2/3 ("it returns ...") fail as universally stated. -/
theorem C1_counterexample :
    get_buildnr "20240101" "a" "b" "20240101x" = Except.error PyErr.valueErr ∧
    get_buildnr "20240101" "a" "b" "20240101x" ≠ Except.ok "20240101-1" := by
  constructor
  · decide
  · decide

/-- C1, amended: for a non-empty invocation date and a prior build id that is
empty or has an integer-parsable last dash-component, `get_buildnr` follows
the three rules in order: same-day prefix plus equal repohash signals
DUPLICATE (`SameBuildExists`, a tagged outcome distinct from every returned
id); else same-day prefix returns today-(suffix+1); else today-1. -/
theorem C1_amended_rules (today repohash old_repohash cur_build : String)
    (htoday : today ≠ "")
    (hwf : cur_build = "" ∨ ∃ n : Nat, pyInt? (lastPart cur_build) = some (n : Int)) :
    (pyStartswith cur_build today = true → repohash = old_repohash →
      get_buildnr today repohash old_repohash cur_build
        = Except.error PyErr.sameBuildExists) ∧
    (pyStartswith cur_build today = true → repohash ≠ old_repohash →
      ∃ n : Nat, pyInt? (lastPart cur_build) = some (n : Int) ∧
        get_buildnr today repohash old_repohash cur_build
          = Except.ok (today ++ "-" ++ natStr (n + 1))) ∧
    (pyStartswith cur_build today = false →
      get_buildnr today repohash old_repohash cur_build
        = Except.ok (today ++ "-" ++ natStr 1)) := by
  refine ⟨fun h1 h2 => buildnr_same today _ _ _ h1 h2, ?_, fun h1 => ?_⟩
  · intro h1 h2
    rcases hwf with rfl | ⟨n, hn⟩
    · rw [pyStartswith_empty_left today htoday] at h1
      exact absurd h1 (by simp)
    · refine ⟨n, hn, ?_⟩
      rw [buildnr_incr today repohash old_repohash cur_build (n : Int) h1 h2 hn]
      have hcast : ((n : Int) + 1) = ((n + 1 : Nat) : Int) := by push_cast; ring
      rw [hcast, pyIntStr_natCast]
  · rw [buildnr_newday today repohash old_repohash cur_build h1]
    have hone : pyIntStr 1 = natStr 1 := by decide
    rw [hone]

/-- C1, witness: a day change resets the counter to 1. -/
theorem C1_witness :
    get_buildnr "20240101" "xyz" "abc" "20231231-5"
      = Except.ok ("20240101" ++ "-" ++ natStr 1) :=
  (C1_amended_rules "20240101" "xyz" "abc" "20231231-5" (by decide)
    (Or.inr ⟨5, by decide⟩)).2.2 (by decide)

/-! ### Claim C2 -/

/-- C2: every build id the generator returns has the form
`<today>-<N>` with `N ≥ 1`; when the day changed (prior id does not carry
today's prefix) the counter resets to 1, and within the same day it moves
from the prior counter `n` to `n + 1 ≥ n` (monotonic non-decreasing). -/
theorem C2_build_id_form (today repohash old_repohash cur_build b : String)
    (hok : get_buildnr today repohash old_repohash cur_build = Except.ok b) :
    (∃ m : Nat, 1 ≤ m ∧ b = today ++ "-" ++ natStr m) ∧
    (pyStartswith cur_build today = false → b = today ++ "-" ++ natStr 1) ∧
    (∀ n : Nat, pyStartswith cur_build today = true →
      pyInt? (lastPart cur_build) = some (n : Int) →
      b = today ++ "-" ++ natStr (n + 1) ∧ n ≤ n + 1) := by
  refine ⟨buildnr_dyn_ok_form today repohash (Json.str old_repohash)
    (Json.str cur_build) b hok, fun h1 => ?_, fun n h1 hp => ?_⟩
  · rw [buildnr_newday today repohash old_repohash cur_build h1] at hok
    injection hok with hok
    rw [← hok]
    have hone : pyIntStr 1 = natStr 1 := by decide
    rw [hone]
  · by_cases heq : repohash = old_repohash
    · rw [buildnr_same today repohash old_repohash cur_build h1 heq] at hok
      exact absurd hok (by simp)
    · rw [buildnr_incr today repohash old_repohash cur_build (n : Int) h1 heq hp] at hok
      injection hok with hok
      refine ⟨?_, by omega⟩
      rw [← hok]
      have hcast : ((n : Int) + 1) = ((n + 1 : Nat) : Int) := by push_cast; ring
      rw [hcast, pyIntStr_natCast]

/-- C2, witness: a same-day re-run with a new repohash increments the
counter, and the produced id has the `<YYYYMMDD>-<N>` form with `N ≥ 1`. -/
theorem C2_witness :
    get_buildnr "20240101" "xyz" "abc" "20240101-3" = Except.ok "20240101-4" ∧
    (∃ m : Nat, 1 ≤ m ∧ "20240101-4" = "20240101" ++ "-" ++ natStr m) := by
  refine ⟨by decide, ?_⟩
  exact (C2_build_id_form "20240101" "xyz" "abc" "20240101-3" "20240101-4"
    (by decide)).1

/-! ### Claim C4 -/

/-- C4: for every architecture, an incident lands in a template's matched
list iff it comes from the input, has `livepatch = false` and
`staging = false`, and its channel set contains the exact
(template.product, template.version, architecture) triple; moreover every
matched incident has a channel carrying exactly this architecture. -/
theorem C4_channel_matcher (issues : List (String × ProdVer))
    (incidents : List Incident) (arch : String)
    (hnd : (issues.map Prod.fst).Nodup) :
    (∀ name tmpl, (name, tmpl) ∈ issues → ∀ i : Incident,
      ((∃ l, (name, l) ∈ test_incidents issues incidents arch ∧ i ∈ l) ↔
        (i ∈ incidents ∧ i.livepatch = false ∧ i.staging = false ∧
          Repos.mk tmpl.product tmpl.version arch ∈ i.channels))) ∧
    (∀ name l, (name, l) ∈ test_incidents issues incidents arch →
      ∀ i ∈ l, ∃ r ∈ i.channels, r.arch = arch) := by
  constructor
  · intro name tmpl hmem i
    constructor
    · rintro ⟨l, hl, hil⟩
      rcases (test_incidents_mem issues incidents arch name l).1 hl with ⟨t, htmem, hleq, hne⟩
      have ht : t = tmpl := keys_nodup_unique issues hnd name t tmpl htmem hmem
      subst ht
      rw [hleq] at hil
      exact (matchList_mem incidents arch t i).1 hil
    · intro hcond
      have hil : i ∈ (valid_incidents incidents).filter
          (fun inc => decide (Repos.mk tmpl.product tmpl.version arch ∈ inc.channels)) :=
        (matchList_mem incidents arch tmpl i).2 hcond
      refine ⟨_, (test_incidents_mem issues incidents arch name _).2
        ⟨tmpl, hmem, rfl, ?_⟩, hil⟩
      intro h0
      rw [h0] at hil
      simp at hil
  · intro name l hl i hil
    rcases (test_incidents_mem issues incidents arch name l).1 hl with ⟨t, _, hleq, _⟩
    rw [hleq] at hil
    have hc := (matchList_mem incidents arch t i).1 hil
    exact ⟨Repos.mk t.product t.version arch, hc.2.2.2, rfl⟩

/-- C4, witness: the fixture incident matches its template on x86_64. -/
theorem C4_witness :
    ∃ l, ("OS_TEST_ISSUES", l) ∈ test_incidents fixConf.test_issues [fixIncident] "x86_64"
      ∧ fixIncident ∈ l := by
  have h := (C4_channel_matcher fixConf.test_issues [fixIncident] "x86_64" (by decide)).1
    "OS_TEST_ISSUES" { product := "SLES", version := "15SP4" } (by decide) fixIncident
  exact h.2 (by decide)

/-! ### Claim C5 -/

/-- C5: the value handed to the repohash merge — `sorted(set(ids))` over the
matched incidents — is invariant under permutation of the matched collection
and under inserting an incident whose identifier is already present; hence
so is the resulting hash, for every merge function. -/
theorem C5_repohash_invariance (merge : List String → String)
    (l1 l2 : List Incident) (i : Incident)
    (hperm : List.Perm l1 l2) (hdup : i ∈ l1) :
    repohashInput l1 = repohashInput l2 ∧
    repohashInput (i :: l1) = repohashInput l1 ∧
    merge (repohashInput l1) = merge (repohashInput l2) := by
  have h1 : repohashInput l1 = repohashInput l2 :=
    sortedDedup_eq_of_mem_iff _ _ (fun x => (hperm.map incStr).mem_iff)
  have h2 : repohashInput (i :: l1) = repohashInput l1 := by
    apply sortedDedup_eq_of_mem_iff
    intro x
    simp only [List.map_cons, List.mem_cons]
    constructor
    · rintro (rfl | hx)
      · exact List.mem_map.2 ⟨i, hdup, rfl⟩
      · exact hx
    · intro hx
      exact Or.inr hx
  exact ⟨h1, h2, by rw [h1]⟩

/-- C5, witness: swapping the two fixture incidents, or repeating one of
them, leaves the merge input unchanged. -/
theorem C5_witness :
    repohashInput [fixIncident, fixIncident2] = repohashInput [fixIncident2, fixIncident] ∧
    repohashInput (fixIncident :: [fixIncident, fixIncident2])
      = repohashInput [fixIncident, fixIncident2] := by
  have h := C5_repohash_invariance (fun l => joinComma l)
    [fixIncident, fixIncident2] [fixIncident2, fixIncident] fixIncident
    (by decide) (by decide)
  exact ⟨h.1, h.2.1⟩

/-! ### Claim C6 -/

/-- C6: for every build id the generator actually produced, the onetime gate
skips the architecture exactly when `onetime` is set, `ignore_onetime` is
not, and the id's numeric counter suffix is not 1. -/
theorem C6_onetime_gate (onetime ign : Bool) (today r rh cb b : String)
    (hok : get_buildnr today r rh cb = Except.ok b) :
    ∃ m : Nat, 1 ≤ m ∧ b = today ++ "-" ++ natStr m ∧
      (onetimeGateSkips onetime ign b = true ↔
        (onetime = true ∧ ign = false ∧ m ≠ 1)) := by
  rcases buildnr_dyn_ok_form today r (Json.str rh) (Json.str cb) b hok with ⟨m, hm, rfl⟩
  refine ⟨m, hm, rfl, ?_⟩
  unfold onetimeGateSkips
  rw [lastPart_append_natStr today m]
  constructor
  · intro hg
    simp only [Bool.and_eq_true, Bool.not_eq_true'] at hg
    refine ⟨hg.2.1, hg.1, ?_⟩
    intro hm1
    rw [hm1] at hg
    have hone : natStr 1 = "1" := by decide
    simp [hone] at hg
  · rintro ⟨ho, hi, hm1⟩
    subst ho
    subst hi
    have hne : natStr m ≠ "1" := fun hcon => hm1 ((natStr_eq_one_iff m).1 hcon)
    simp [hne]

/-- C6, witness: `onetime = true`, `ignore_onetime = false`, generated build
"20240101-2" skips; the gate formula is exercised at counter 2. -/
theorem C6_witness :
    ∃ m : Nat, 1 ≤ m ∧ "20240101-2" = "20240101" ++ "-" ++ natStr m ∧
      (onetimeGateSkips true false "20240101-2" = true ↔
        (true = true ∧ false = false ∧ m ≠ 1)) :=
  C6_onetime_gate true false "20240101" "xyz" "abc" "20240101-1" "20240101-2"
    (by decide)

/-! ### Claim C8 -/

/-- C8: an architecture whose deduplicated union of matched incidents is
empty never yields a payload, and every emitted payload carries a non-empty
dashboard `incidents` list. -/
theorem C8_no_empty_payload (conf : AggregateConf) (ext : External)
    (incs : List Incident) (ci : Option String) (ign : Bool) (arch : String)
    (oj : Option Json) :
    (((test_incidents conf.test_issues incs arch).map Prod.snd).flatten = [] →
      ∀ p, processArch conf ext incs ci ign arch oj ≠ Except.ok (ArchOutcome.payload p)) ∧
    (∀ p, processArch conf ext incs ci ign arch oj = Except.ok (ArchOutcome.payload p) →
      p.qem_incidents ≠ []) := by
  constructor
  · intro hempty p hrun
    rcases processArch_payload_inv conf ext incs ci ign arch oj p hrun with
      ⟨jr, jb, b, s, _, _, _, _, _, hincf, _⟩
    unfold qemIncidentsOf at hincf
    rw [hempty] at hincf
    simp at hincf
  · intro p hrun
    rcases processArch_payload_inv conf ext incs ci ign arch oj p hrun with
      ⟨jr, jb, b, s, _, _, _, _, _, hincf, hp⟩
    rw [hp]
    simp only [mkFullPost]
    intro hnil
    rw [hnil] at hincf
    simp at hincf

/-- C8, witness: the fixture run emits a payload whose incident list is
non-empty. -/
theorem C8_witness :
    (payloadOf (processArch fixConf fixExt [fixIncident] none false
      "x86_64" none)).qem_incidents ≠ [] :=
  (C8_no_empty_payload fixConf fixExt [fixIncident] none false "x86_64" none).2
    (payloadOf (processArch fixConf fixExt [fixIncident] none false "x86_64" none))
    (by rfl)

/-! ### Claim C3 -/

/-- C3, counterexample: a dashboard response that decodes to a JSON object
(an unexpected but successfully parsed shape) makes `old_jobs[0]` raise
`KeyError` outside the `try` block, aborting the whole call — the sibling
architecture `aarch64` is never processed. -/
theorem C3_counterexample :
    aggregate_call fixConfTwoArchs fixExtObjResp [fixIncident] none false
      = Except.error PyErr.keyErr ∧
    processArch fixConfTwoArchs fixExtObjResp [fixIncident] none false "x86_64"
      (some (Json.obj [("error", Json.str "oops")])) = Except.error PyErr.keyErr := by
  exact ⟨rfl, rfl⟩

/-- C3, amended: when the dashboard read raises inside the `try` block, the
failure is swallowed and treated as no prior state (empty repohash, empty
build id) and the architecture — and the whole run — proceeds without an
uncaught exception; this containment requires the read to raise, a
non-empty date, and resolvers that keep their trigger keys (an unexpected
but successfully decoded response shape is not contained, see the
counterexample). -/
theorem C3_amended_fail_open (conf : AggregateConf) (ext : External)
    (incs : List Incident) (ci : Option String) (ign : Bool)
    (htoday : ext.today ≠ "")
    (hp2 : ∀ s, dcontains s "PUBLIC_CLOUD_IMAGE_REGEX" = true →
      dcontains (ext.apply_publiccloud_regex s) "PUBLIC_CLOUD_IMAGE_REGEX" = true)
    (hp3 : ∀ s, dcontains s "PUBLIC_CLOUD_PINT_QUERY" = true →
      dcontains (ext.apply_publiccloud_pint_image s) "PUBLIC_CLOUD_PINT_QUERY" = true) :
    (priorField none "repohash" = Except.ok (Json.str "") ∧
      priorField none "build" = Except.ok (Json.str "")) ∧
    (∀ arch e, processArch conf ext incs ci ign arch none ≠ Except.error e) ∧
    ((∀ a, ext.dashboard a = none) →
      ∀ e, aggregate_call conf ext incs ci ign ≠ Except.error e) := by
  refine ⟨⟨rfl, rfl⟩, ?_, ?_⟩
  · intro arch e
    exact processArch_none_no_error conf ext incs ci ign arch htoday hp2 hp3 e
  · intro hdash e
    exact runArchs_none_no_error conf ext incs ci ign hdash htoday hp2 hp3 conf.archs e

/-- C3, witness: with every dashboard read raising, the fixture call cannot
abort with an uncaught exception. -/
theorem C3_witness :
    aggregate_call fixConf fixExt [fixIncident] none false ≠ Except.error PyErr.keyErr :=
  (C3_amended_fail_open fixConf fixExt [fixIncident] none false (by decide)
    (fun s h => h) (fun s h => h)).2.2 (fun a => rfl) PyErr.keyErr

/-! ### Claim C7 -/

/-- C7: the resolver chain runs its three optional steps at most once each,
in the fixed order tools, regex, pint, each triggered only by the presence
of its trigger key (on success the resolved settings are exactly the
in-order conditional applications); a step whose documented output key is
missing after resolution fails; any single failure makes the loop body skip
the architecture with no payload and no exception; and a skipped
architecture leaves the rest of the loop untouched.  The step-failure facts
assume the spec's collaborator contract that a resolver keeps its own
trigger key. -/
theorem C7_resolver_chain (conf : AggregateConf) (ext : External)
    (incs : List Incident) (ci : Option String) (ign : Bool) (arch : String)
    (oj : Option Json) :
    (∀ d, settingsPhase ext.apply_pc_tools_image ext.apply_publiccloud_regex
        ext.apply_publiccloud_pint_image conf.settings = Except.ok d →
      d = applyIfKey "PUBLIC_CLOUD_PINT_QUERY" ext.apply_publiccloud_pint_image
            (applyIfKey "PUBLIC_CLOUD_IMAGE_REGEX" ext.apply_publiccloud_regex
              (applyIfKey "PUBLIC_CLOUD_TOOLS_IMAGE_QUERY" ext.apply_pc_tools_image
                conf.settings))) ∧
    (dcontains conf.settings "PUBLIC_CLOUD_TOOLS_IMAGE_QUERY" = true →
      dgetTruthy (ext.apply_pc_tools_image conf.settings)
        "PUBLIC_CLOUD_TOOLS_IMAGE_BASE" = false →
      settingsPhase ext.apply_pc_tools_image ext.apply_publiccloud_regex
        ext.apply_publiccloud_pint_image conf.settings
        = Except.error ChainExit.tools) ∧
    (∀ s1, toolsStep ext.apply_pc_tools_image conf.settings = Except.ok s1 →
      dcontains s1 "PUBLIC_CLOUD_IMAGE_REGEX" = true →
      dgetTruthy (ext.apply_publiccloud_regex s1) "PUBLIC_CLOUD_IMAGE_LOCATION" = false →
      dcontains (ext.apply_publiccloud_regex s1) "PUBLIC_CLOUD_IMAGE_REGEX" = true →
      settingsPhase ext.apply_pc_tools_image ext.apply_publiccloud_regex
        ext.apply_publiccloud_pint_image conf.settings
        = Except.error ChainExit.regex) ∧
    (∀ s1 s2, toolsStep ext.apply_pc_tools_image conf.settings = Except.ok s1 →
      regexStep ext.apply_publiccloud_regex s1 = Except.ok s2 →
      dcontains s2 "PUBLIC_CLOUD_PINT_QUERY" = true →
      dgetTruthy (ext.apply_publiccloud_pint_image s2) "PUBLIC_CLOUD_IMAGE_ID" = false →
      dcontains (ext.apply_publiccloud_pint_image s2) "PUBLIC_CLOUD_PINT_QUERY" = true →
      settingsPhase ext.apply_pc_tools_image ext.apply_publiccloud_regex
        ext.apply_publiccloud_pint_image conf.settings
        = Except.error ChainExit.pint) ∧
    (∀ jr jb b r, priorField oj "repohash" = Except.ok jr →
      priorField oj "build" = Except.ok jb →
      get_buildnr_dyn ext.today (archRepohash conf ext incs arch) jr jb = Except.ok b →
      onetimeGateSkips conf.onetime ign b = false →
      settingsPhase ext.apply_pc_tools_image ext.apply_publiccloud_regex
        ext.apply_publiccloud_pint_image conf.settings = Except.error r →
      (r = ChainExit.tools →
        processArch conf ext incs ci ign arch oj = Except.ok ArchOutcome.toolsFailed) ∧
      (r = ChainExit.regex →
        processArch conf ext incs ci ign arch oj = Except.ok ArchOutcome.regexFailed) ∧
      (r = ChainExit.pint →
        processArch conf ext incs ci ign arch oj = Except.ok ArchOutcome.pintFailed)) ∧
    (∀ rest o, processArch conf ext incs ci ign arch (ext.dashboard arch) = Except.ok o →
      (∀ p, o ≠ ArchOutcome.payload p) →
      runArchs conf ext incs ci ign (arch :: rest)
        = runArchs conf ext incs ci ign rest) := by
  refine ⟨?_, ?_, ?_, ?_, ?_, ?_⟩
  · intro d hd
    exact settingsPhase_ok_decomp _ _ _ _ d hd
  · intro hk ho
    unfold settingsPhase
    rw [toolsStep_fail _ _ hk ho]
  · intro s1 h1 hk ho hpres
    unfold settingsPhase
    simp only [h1]
    rw [regexStep_fail _ _ hk ho hpres]
  · intro s1 s2 h1 h2 hk ho hpres
    unfold settingsPhase
    simp only [h1, h2]
    exact pintStep_fail _ _ hk ho hpres
  · intro jr jb b r hpr hpb hbn hgate hsp
    refine ⟨?_, ?_, ?_⟩ <;> intro hr <;> subst hr <;>
      simp only [processArch, hpr, hpb, hbn, hgate, Bool.false_eq_true, if_false, hsp]
  · intro rest o h hno
    exact runArchs_cons_skip conf ext incs ci ign arch rest o h hno

/-- C7, witness: a present `PUBLIC_CLOUD_IMAGE_REGEX` whose resolver yields
no `PUBLIC_CLOUD_IMAGE_LOCATION` fails the chain, skips the architecture
with no payload, and leaves the sibling architecture's processing intact. -/
theorem C7_witness :
    settingsPhase fixExt.apply_pc_tools_image fixExt.apply_publiccloud_regex
      fixExt.apply_publiccloud_pint_image fixConfRegex.settings
      = Except.error ChainExit.regex ∧
    processArch fixConfRegex fixExt [fixIncident] none false "x86_64" none
      = Except.ok ArchOutcome.regexFailed ∧
    runArchs fixConfRegex fixExt [fixIncident] none false ["x86_64", "aarch64"]
      = runArchs fixConfRegex fixExt [fixIncident] none false ["aarch64"] := by
  have h := C7_resolver_chain fixConfRegex fixExt [fixIncident] none false "x86_64" none
  have hfail := h.2.2.1 fixConfRegex.settings rfl (by decide) (by decide) (by decide)
  have hskip := (h.2.2.2.2.1 (Json.str "") (Json.str "") "20240101-1" ChainExit.regex
    rfl rfl (by decide) (by decide) hfail).2.1 rfl
  refine ⟨hfail, hskip, ?_⟩
  exact h.2.2.2.2.2 ["aarch64"] ArchOutcome.regexFailed hskip
    (fun p hcon => ArchOutcome.noConfusion hcon)

/-! ### Claim C9 -/

theorem pyStartswith_append2 (s t u : String) :
    pyStartswith (s ++ t ++ u) s = true := by
  unfold pyStartswith
  rw [String.data_append, String.data_append, List.append_assoc]
  exact isPrefixOf_append s.data (t.data ++ u.data)

/-- C9, counterexample: with a base-settings `BUILD` key, the recorded build
id is the settings value, so replaying the recorded state does not trip the
duplicate check — the re-run emits a fresh payload instead of DUPLICATE. -/
theorem C9_counterexample :
    processArch fixConfOverride fixExt [fixIncident] none false "x86_64"
        (mkPrior (payloadOf (processArch fixConfOverride fixExt [fixIncident]
          none false "x86_64" none)))
      ≠ Except.ok ArchOutcome.sameBuild ∧
    processArch fixConfOverride fixExt [fixIncident] none false "x86_64"
        (mkPrior (payloadOf (processArch fixConfOverride fixExt [fixIncident]
          none false "x86_64" none)))
      = Except.ok (ArchOutcome.payload (payloadOf
          (processArch fixConfOverride fixExt [fixIncident] none false "x86_64"
            (mkPrior (payloadOf (processArch fixConfOverride fixExt [fixIncident]
              none false "x86_64" none)))))) := by
  exact ⟨by decide, rfl⟩

/-- C9, amended: provided the resolved settings carry neither a `BUILD` nor
a `REPOHASH` key and no template is named `BUILD`/`REPOHASH` (so the
dashboard records the generated values), re-running the per-architecture
pipeline with identical inputs against the recorded state always yields the
DUPLICATE outcome and never a new build id. -/
theorem C9_rerun_duplicate (conf : AggregateConf) (ext : External)
    (incs : List Incident) (ci : Option String) (ign : Bool) (arch : String)
    (oj : Option Json) (p : FullPost)
    (htempl : ∀ q ∈ conf.test_issues, q.1 ≠ "BUILD" ∧ q.1 ≠ "REPOHASH")
    (hset : ∀ s, settingsPhase ext.apply_pc_tools_image ext.apply_publiccloud_regex
        ext.apply_publiccloud_pint_image conf.settings = Except.ok s →
      dcontains s "BUILD" = false ∧ dcontains s "REPOHASH" = false)
    (hrun : processArch conf ext incs ci ign arch oj = Except.ok (ArchOutcome.payload p)) :
    processArch conf ext incs ci ign arch (mkPrior p)
      = Except.ok ArchOutcome.sameBuild := by
  rcases processArch_payload_inv conf ext incs ci ign arch oj p hrun with
    ⟨jr, jb, b, s, hpr, hpb, hbn, hgate, hsp, hincf, hp⟩
  obtain ⟨hsB, hsR⟩ := hset s hsp
  have hqr : p.qem_repohash = Val.s (archRepohash conf ext incs arch) := by
    rw [hp]
    simp only [mkFullPost]
    rw [payloadOpenqa_REPOHASH_generated _ _ _ _ _ _ _
      (notMem_ti_keys conf incs arch "REPOHASH" (fun q hq => (htempl q hq).2)) hsR]
    rfl
  have hqb : p.qem_build = Val.s b := by
    rw [hp]
    simp only [mkFullPost]
    rw [payloadOpenqa_BUILD_generated _ _ _ _ _ _ _
      (notMem_ti_keys conf incs arch "BUILD" (fun q hq => (htempl q hq).1)) hsB]
    rfl
  rcases buildnr_dyn_ok_form _ _ _ _ _ hbn with ⟨m, hm, rfl⟩
  have hmk : mkPrior p = some (Json.arr [Json.obj
      [("repohash", Json.str (archRepohash conf ext incs arch)),
       ("build", Json.str (ext.today ++ "-" ++ natStr m))]]) := by
    simp only [mkPrior, hqr, hqb]
  rw [hmk]
  have e1 : priorField (some (Json.arr [Json.obj
      [("repohash", Json.str (archRepohash conf ext incs arch)),
       ("build", Json.str (ext.today ++ "-" ++ natStr m))]])) "repohash"
      = Except.ok (Json.str (archRepohash conf ext incs arch)) := rfl
  have e2 : priorField (some (Json.arr [Json.obj
      [("repohash", Json.str (archRepohash conf ext incs arch)),
       ("build", Json.str (ext.today ++ "-" ++ natStr m))]])) "build"
      = Except.ok (Json.str (ext.today ++ "-" ++ natStr m)) := rfl
  have e3 : get_buildnr_dyn ext.today (archRepohash conf ext incs arch)
      (Json.str (archRepohash conf ext incs arch))
      (Json.str (ext.today ++ "-" ++ natStr m))
      = Except.error PyErr.sameBuildExists := by
    simp only [get_buildnr_dyn]
    rw [if_pos]
    rw [pyStartswith_append2]
    simp [jsonHashEq]
  simp only [processArch, e1, e2, e3]

/-- C9, witness: the fixture first run emits a payload; replaying its
recorded repohash/build as the prior state yields DUPLICATE. -/
theorem C9_witness :
    processArch fixConf fixExt [fixIncident] none false "x86_64"
      (mkPrior (payloadOf (processArch fixConf fixExt [fixIncident]
        none false "x86_64" none)))
      = Except.ok ArchOutcome.sameBuild := by
  apply C9_rerun_duplicate fixConf fixExt [fixIncident] none false "x86_64" none
    (payloadOf (processArch fixConf fixExt [fixIncident] none false "x86_64" none))
    (by decide)
  · intro s hs
    rw [show settingsPhase fixExt.apply_pc_tools_image fixExt.apply_publiccloud_regex
        fixExt.apply_publiccloud_pint_image fixConf.settings
        = Except.ok [("DISTRI", Val.s "sle")] from rfl] at hs
    injection hs with hs
    rw [← hs]
    exact ⟨rfl, rfl⟩
  · rfl

/-! ### Claim C10 -/

/-- C10: in every emitted payload the trigger settings' `FLAVOR`, `ARCH` and
`_OBSOLETE` fields hold the configured flavor, the current architecture and
the integer 1 even when the base settings map binds those names, because
they are written after the settings merge; but a `BUILD` or `REPOHASH`
binding in the base settings map overwrites the generated build id or
repohash, because the merge happens after those two are written.  (Stated
for configurations whose trigger keys are absent — so the resolvers do not
run and the resolved settings are the base settings — and whose template
names avoid the five field names.) -/
theorem C10_trigger_settings_fields (conf : AggregateConf) (ext : External)
    (incs : List Incident) (ci : Option String) (ign : Bool) (arch : String)
    (oj : Option Json) (p : FullPost)
    (htempl : ∀ q ∈ conf.test_issues, q.1 ≠ "FLAVOR" ∧ q.1 ≠ "ARCH" ∧
      q.1 ≠ "_OBSOLETE" ∧ q.1 ≠ "BUILD" ∧ q.1 ≠ "REPOHASH")
    (hnd : (conf.settings.map Prod.fst).Nodup)
    (htrig : dcontains conf.settings "PUBLIC_CLOUD_TOOLS_IMAGE_QUERY" = false ∧
      dcontains conf.settings "PUBLIC_CLOUD_IMAGE_REGEX" = false ∧
      dcontains conf.settings "PUBLIC_CLOUD_PINT_QUERY" = false)
    (hrun : processArch conf ext incs ci ign arch oj = Except.ok (ArchOutcome.payload p)) :
    dlookup p.openqa "FLAVOR" = some (Val.s conf.flavor) ∧
    dlookup p.openqa "ARCH" = some (Val.s arch) ∧
    dlookup p.openqa "_OBSOLETE" = some (Val.n 1) ∧
    (∀ v, dlookup conf.settings "BUILD" = some v →
      dlookup p.openqa "BUILD" = some v) ∧
    (∀ v, dlookup conf.settings "REPOHASH" = some v →
      dlookup p.openqa "REPOHASH" = some v) := by
  rcases processArch_payload_inv conf ext incs ci ign arch oj p hrun with
    ⟨jr, jb, b, s, hpr, hpb, hbn, hgate, hsp, hincf, hp⟩
  have hs : s = conf.settings := by
    rw [settingsPhase_no_triggers _ _ _ _ htrig.1 htrig.2.1 htrig.2.2] at hsp
    injection hsp with hsp
    exact hsp.symm
  subst hs
  subst hp
  simp only [mkFullPost]
  refine ⟨?_, ?_, ?_, ?_, ?_⟩
  · exact payloadOpenqa_FLAVOR _ _ _ _ _ _ _
      (notMem_ti_keys conf incs arch "FLAVOR" (fun q hq => (htempl q hq).1))
  · exact payloadOpenqa_ARCH _ _ _ _ _ _ _
      (notMem_ti_keys conf incs arch "ARCH" (fun q hq => (htempl q hq).2.1))
  · exact payloadOpenqa_OBSOLETE _ _ _ _ _ _ _
      (notMem_ti_keys conf incs arch "_OBSOLETE" (fun q hq => (htempl q hq).2.2.1))
  · intro v hv
    exact payloadOpenqa_BUILD_overridden _ _ _ _ _ _ _ v
      (notMem_ti_keys conf incs arch "BUILD" (fun q hq => (htempl q hq).2.2.2.1)) hnd hv
  · intro v hv
    exact payloadOpenqa_REPOHASH_overridden _ _ _ _ _ _ _ v
      (notMem_ti_keys conf incs arch "REPOHASH" (fun q hq => (htempl q hq).2.2.2.2)) hnd hv

/-- C10, witness: base settings shadowing FLAVOR/ARCH/_OBSOLETE lose to the
late writes, while the BUILD and REPOHASH shadows win over the generated
values. -/
theorem C10_witness :
    dlookup (payloadOf (processArch fixConfShadow fixExt [fixIncident]
      none false "x86_64" none)).openqa "FLAVOR" = some (Val.s "Aggregate") ∧
    dlookup (payloadOf (processArch fixConfShadow fixExt [fixIncident]
      none false "x86_64" none)).openqa "ARCH" = some (Val.s "x86_64") ∧
    dlookup (payloadOf (processArch fixConfShadow fixExt [fixIncident]
      none false "x86_64" none)).openqa "_OBSOLETE" = some (Val.n 1) ∧
    dlookup (payloadOf (processArch fixConfShadow fixExt [fixIncident]
      none false "x86_64" none)).openqa "BUILD" = some (Val.s "X") ∧
    dlookup (payloadOf (processArch fixConfShadow fixExt [fixIncident]
      none false "x86_64" none)).openqa "REPOHASH" = some (Val.s "Y") := by
  have h := C10_trigger_settings_fields fixConfShadow fixExt [fixIncident]
    none false "x86_64" none
    (payloadOf (processArch fixConfShadow fixExt [fixIncident] none false "x86_64" none))
    (by decide) (by decide) ⟨by decide, by decide, by decide⟩ rfl
  exact ⟨h.1, h.2.1, h.2.2.1, h.2.2.2.1 _ (by decide), h.2.2.2.2 _ (by decide)⟩
